import Mathlib

/-!
# ARGB driver (STM32-ARGB-DMA, `Library/ARGB.c`): a shallow embedding

The driver keeps its data in global variables (`RGB_BUF`, `PWM_BUF`,
`BUF_COUNTER`, `ARGB_BR`, `ARGB_LOC_ST`, `PWM_HI`, `PWM_LO`).  They are the
fields of the record `Engine`; every C function is a Lean function that takes
the record and returns the new one.

* Arrays are total maps `Nat → Nat` (a memory region indexed from the array's
  base), so that a write past the end of an array stays visible.
* `u8_t` / `u16_t` values are natural numbers; an assignment that can leave the
  range of its variable is followed by `% 256` / `% 65536` (the cursor
  `BUF_COUNTER++`, the index and the channels in `ARGB_SetRGB`).
* The compile-time choices of `ARGB.h` (LED family, `NUM_PIXELS`,
  `USE_GAMMA_CORRECTION`, whether `RGB` is defined) are the fields of `Config`.
* The HAL is outside the repository.  The driver reads `DMA_HANDLE.State` and
  reads and writes the state of the timer channel; both are fields of `Engine`.
  The status returned by the n-th call of `HAL_DMA_Start_IT` is a parameter
  `start : Nat → HAL_StatusTypeDef`.  Of the HAL's own behaviour only this is
  used: a start that succeeds leaves the DMA handle busy, and
  `HAL_DMA_Abort_IT` leaves it ready.
* The loop `while (DMA_Send_Stat != HAL_OK)` of `ARGB_Show` takes `fuel`, the
  number of passes it may make; `none` means that it has not returned.
-/

namespace ARGB

/-! ## Types of `ARGB.h` and of the HAL -/

/-- Return and status codes of the driver (`ARGB.h`). -/
inductive ARGB_STATE where
  | ARGB_BUSY
  | ARGB_READY
  | ARGB_OK
  | ARGB_PARAM_ERR
  deriving DecidableEq, Repr

/-- The LED family selected in `ARGB.h`; exactly one of the four macros is defined. -/
inductive Family where
  | WS2811S
  | WS2811F
  | WS2812
  | SK6812
  deriving DecidableEq, Repr

/-- HAL status codes. -/
inductive HAL_StatusTypeDef where
  | HAL_OK
  | HAL_ERROR
  | HAL_BUSY
  | HAL_TIMEOUT
  deriving DecidableEq, Repr

/-- States of a DMA handle (`DMA_HANDLE.State`). -/
inductive HAL_DMA_StateTypeDef where
  | HAL_DMA_STATE_RESET
  | HAL_DMA_STATE_READY
  | HAL_DMA_STATE_BUSY
  | HAL_DMA_STATE_TIMEOUT
  deriving DecidableEq, Repr

/-- States of a timer channel (`TIM_CHANNEL_STATE_GET`). -/
inductive HAL_TIM_ChannelStateTypeDef where
  | HAL_TIM_CHANNEL_STATE_RESET
  | HAL_TIM_CHANNEL_STATE_READY
  | HAL_TIM_CHANNEL_STATE_BUSY
  deriving DecidableEq, Repr

open ARGB_STATE Family HAL_StatusTypeDef HAL_DMA_StateTypeDef HAL_TIM_ChannelStateTypeDef

/-- Compile-time configuration taken from `ARGB.h`. -/
structure Config where
  /-- which of `WS2811S`, `WS2811F`, `WS2812`, `SK6812` is defined -/
  family : Family
  /-- the macro `NUM_PIXELS` -/
  NUM_PIXELS : Nat
  /-- the macro `USE_GAMMA_CORRECTION` -/
  USE_GAMMA_CORRECTION : Bool
  /-- whether the macro `RGB` is defined (tested by `ARGB_SetWhite`) -/
  RGB : Bool

/-- Bytes per pixel: `4` under `#ifdef SK6812`, else `3` (the factor in `NUM_BYTES`). -/
def Config.channels (c : Config) : Nat :=
  if c.family = SK6812 then 4 else 3

/-- The macro `NUM_BYTES`. -/
def NUM_BYTES (c : Config) : Nat :=
  if c.family = SK6812 then 4 * c.NUM_PIXELS else 3 * c.NUM_PIXELS

/-- The macro `PWM_BUF_LEN`. -/
def PWM_BUF_LEN (c : Config) : Nat :=
  if c.family = SK6812 then 4 * 8 * 2 else 3 * 8 * 2

/-- The global variables of `ARGB.c` together with the HAL state the driver reads and writes. -/
structure Engine where
  /-- the colour buffer `RGB_BUF` -/
  RGB_BUF : Nat → Nat
  /-- the transfer buffer `PWM_BUF` -/
  PWM_BUF : Nat → Nat
  /-- the progress cursor `BUF_COUNTER` (`u16_t`) -/
  BUF_COUNTER : Nat
  /-- the global brightness `ARGB_BR` (`u8_t`) -/
  ARGB_BR : Nat
  /-- the send status `ARGB_LOC_ST` -/
  ARGB_LOC_ST : ARGB_STATE
  /-- duty code of a logical one -/
  PWM_HI : Nat
  /-- duty code of a logical zero -/
  PWM_LO : Nat
  /-- the field `DMA_HANDLE.State`; the HAL makes it busy on a successful start
  and ready again on abort -/
  dmaState : HAL_DMA_StateTypeDef
  /-- the state of the timer channel `TIM_CH` -/
  chState : HAL_TIM_ChannelStateTypeDef
  /-- number of calls of `HAL_DMA_Start_IT` made so far -/
  dmaStarts : Nat
  /-- whether the timer's DMA request is enabled (`__HAL_TIM_ENABLE_DMA`,
  `__HAL_TIM_DISABLE_DMA`): the Transfer Engine is emitting `PWM_BUF` -/
  dmaRequest : Bool

/-- The assignment `buf[a] = v`. -/
def wr (buf : Nat → Nat) (a v : Nat) : Nat → Nat :=
  fun j => if j = a then v else buf j

/-- The call `memset(&buf[start], 0, len)`. -/
def memset0 (buf : Nat → Nat) (start len : Nat) : Nat → Nat :=
  fun j => if start ≤ j ∧ j < start + len then 0 else buf j

/-! ## Colour pipeline -/

/-- The function `scale8`: `((uint16_t) x * scale) >> 8`, returned as `u8_t`. -/
def scale8 (x scale : Nat) : Nat :=
  ((x * scale) >>> 8) % 256

/-- The function `ARGB_SetRGB`. -/
def ARGB_SetRGB (c : Config) (s : Engine) (i r g b : Nat) : ARGB_STATE × Engine :=
  -- overflow protection
  let i := if i ≥ c.NUM_PIXELS then
      let _i := (i / c.NUM_PIXELS) % 65536
      (i - _i * c.NUM_PIXELS) % 65536
    else i
  -- set brightness
  let r := (r / (256 / (s.ARGB_BR % 65536 + 1))) % 256
  let g := (g / (256 / (s.ARGB_BR % 65536 + 1))) % 256
  let b := (b / (256 / (s.ARGB_BR % 65536 + 1))) % 256
  let g := if c.USE_GAMMA_CORRECTION then scale8 g 0xB0 else g
  let b := if c.USE_GAMMA_CORRECTION then scale8 b 0xF0 else b
  -- subpixel chain order
  let subp1 := if c.family = SK6812 ∨ c.family = WS2811F ∨ c.family = WS2811S then r else g
  let subp2 := if c.family = SK6812 ∨ c.family = WS2811F ∨ c.family = WS2811S then g else r
  let subp3 := b
  -- RGB or RGBW
  let buf := if c.family = SK6812 then
      wr (wr (wr s.RGB_BUF (4 * i) subp1) (4 * i + 1) subp2) (4 * i + 2) subp3
    else
      wr (wr (wr s.RGB_BUF (3 * i) subp1) (3 * i + 1) subp2) (3 * i + 2) subp3
  (ARGB_OK, { s with RGB_BUF := buf })

/-- The function `ARGB_SetBrightness`. -/
def ARGB_SetBrightness (s : Engine) (br : Nat) : ARGB_STATE × Engine :=
  (ARGB_OK, { s with ARGB_BR := br })

/-- The function `HSV2RGB`; the result is the triple written to `_r[0]`, `_g[0]`, `_b[0]`.
The block under `#if USE_HSV_FLOAT` is left out: the file refuses `USE_HSV_FLOAT == 1`, and
the integer code below it is compiled unconditionally and assigns all three outputs. -/
def HSV2RGB (hue sat val : Nat) : Nat × Nat × Nat :=
  if sat = 0 then (val, val, val)
  else
    let reg := (hue / 43) % 256
    let rem := ((hue - reg * 43) * 6) % 256
    let p := ((val * (255 - sat)) >>> 8) % 256
    let q := ((val * (255 - ((sat * rem) >>> 8))) >>> 8) % 256
    let t := ((val * (255 - ((sat * (255 - rem)) >>> 8))) >>> 8) % 256
    match reg with
    | 0 => (val, t, p)
    | 1 => (q, val, p)
    | 2 => (p, val, t)
    | 3 => (p, q, val)
    | 4 => (t, p, val)
    | _ => (val, p, q)

/-- The function `ARGB_SetHSV`. -/
def ARGB_SetHSV (c : Config) (s : Engine) (i hue sat val : Nat) : ARGB_STATE × Engine :=
  ARGB_SetRGB c s i (HSV2RGB hue sat val).1 (HSV2RGB hue sat val).2.1 (HSV2RGB hue sat val).2.2

/-- The function `ARGB_SetWhite`. -/
def ARGB_SetWhite (c : Config) (s : Engine) (i w : Nat) : ARGB_STATE × Engine :=
  if c.RGB then (ARGB_PARAM_ERR, s)
  else
    -- set brightness
    let w := (w / (256 / (s.ARGB_BR % 65536 + 1))) % 256
    -- set white part
    (ARGB_OK, { s with RGB_BUF := wr s.RGB_BUF (4 * i + 3) w })

/-- The loop `for (volatile u16_t i = 0; i < NUM_PIXELS; i++) ARGB_SetRGB(i, r, g, b);` of
`ARGB_FillRGB`, from the value `i` of its variable on; one test of `i < NUM_PIXELS` per unit
of fuel, `none` when the loop has not been left yet. -/
def fillRGBLoop (c : Config) (r g b : Nat) : Nat → Nat → Engine → Option Engine
  | 0, _, _ => none
  | fuel + 1, i, s =>
    if i < c.NUM_PIXELS then
      fillRGBLoop c r g b fuel ((i + 1) % 65536) (ARGB_SetRGB c s i r g b).2
    else some s

/-- The function `ARGB_FillRGB`. -/
def ARGB_FillRGB (c : Config) (fuel : Nat) (s : Engine) (r g b : Nat) :
    Option (ARGB_STATE × Engine) :=
  match fillRGBLoop c r g b fuel 0 s with
  | none => none
  | some s => some (ARGB_OK, s)

/-- The function `ARGB_FillHSV`: the colour is converted once. -/
def ARGB_FillHSV (c : Config) (fuel : Nat) (s : Engine) (hue sat val : Nat) :
    Option (ARGB_STATE × Engine) :=
  ARGB_FillRGB c fuel s (HSV2RGB hue sat val).1 (HSV2RGB hue sat val).2.1
    (HSV2RGB hue sat val).2.2

/-- The loop `for (volatile u16_t i = 0; i < NUM_PIXELS; i++) ARGB_SetWhite(i, w);` of
`ARGB_FillWhite`, from the value `i` of its variable on. -/
def fillWhiteLoop (c : Config) (w : Nat) : Nat → Nat → Engine → Option Engine
  | 0, _, _ => none
  | fuel + 1, i, s =>
    if i < c.NUM_PIXELS then
      fillWhiteLoop c w fuel ((i + 1) % 65536) (ARGB_SetWhite c s i w).2
    else some s

/-- The function `ARGB_FillWhite`. -/
def ARGB_FillWhite (c : Config) (fuel : Nat) (s : Engine) (w : Nat) :
    Option (ARGB_STATE × Engine) :=
  match fillWhiteLoop c w fuel 0 s with
  | none => none
  | some s => some (ARGB_OK, s)

/-- The function `ARGB_Clear`; each of its two loops may make `fuel` tests. -/
def ARGB_Clear (c : Config) (fuel : Nat) (s : Engine) : Option (ARGB_STATE × Engine) :=
  match ARGB_FillRGB c fuel s 0 0 0 with
  | none => none
  | some (_, s) =>
    if c.family = SK6812 then
      match ARGB_FillWhite c fuel s 0 with
      | none => none
      | some (_, s) => some (ARGB_OK, s)
    else some (ARGB_OK, s)

/-- The function `ARGB_Ready`. -/
def ARGB_Ready (s : Engine) : ARGB_STATE :=
  s.ARGB_LOC_ST

/-! ## Streaming engine -/

/-- One pass of the `for` loop of `ARGB_Show` (loop variable `i`). -/
def showFillStep (c : Config) (rgb : Nat → Nat) (hi lo : Nat) (pwm : Nat → Nat) (i : Nat) :
    Nat → Nat :=
  let pwm := wr pwm i (if ((rgb 0 <<< i) &&& 0x80) > 0 then hi else lo)
  let pwm := wr pwm (i + 8) (if ((rgb 1 <<< i) &&& 0x80) > 0 then hi else lo)
  let pwm := wr pwm (i + 16) (if ((rgb 2 <<< i) &&& 0x80) > 0 then hi else lo)
  let pwm := wr pwm (i + 24) (if ((rgb 3 <<< i) &&& 0x80) > 0 then hi else lo)
  let pwm := wr pwm (i + 32) (if ((rgb 4 <<< i) &&& 0x80) > 0 then hi else lo)
  let pwm := wr pwm (i + 40) (if ((rgb 5 <<< i) &&& 0x80) > 0 then hi else lo)
  if c.family = SK6812 then
    let pwm := wr pwm (i + 48) (if ((rgb 6 <<< i) &&& 0x80) > 0 then hi else lo)
    wr pwm (i + 56) (if ((rgb 7 <<< i) &&& 0x80) > 0 then hi else lo)
  else pwm

/-- The `for (i = 0; i < 8; i++)` loop of `ARGB_Show`. -/
def showFill (c : Config) (rgb : Nat → Nat) (hi lo : Nat) (pwm : Nat → Nat) : Nat → Nat :=
  (List.range 8).foldl (showFillStep c rgb hi lo) pwm

/-- The loop `while (DMA_Send_Stat != HAL_OK)` of `ARGB_Show`, one pass per unit of `fuel`.
`none` means that the loop has not been left yet. -/
def showLoop (start : Nat → HAL_StatusTypeDef) : Nat → Engine → Option Engine
  | 0, _ => none
  | fuel + 1, s =>
    if s.chState = HAL_TIM_CHANNEL_STATE_BUSY then
      -- DMA_Send_Stat = HAL_BUSY; continue
      showLoop start fuel s
    else if s.chState = HAL_TIM_CHANNEL_STATE_READY then
      let s := { s with chState := HAL_TIM_CHANNEL_STATE_BUSY }
      let r := start s.dmaStarts
      let s := { s with dmaStarts := s.dmaStarts + 1 }
      if r ≠ HAL_OK then
        -- DMA_Send_Stat = HAL_ERROR; continue
        showLoop start fuel s
      else
        -- __HAL_TIM_ENABLE_DMA, main output and timer enabled; DMA_Send_Stat = HAL_OK
        some { s with dmaState := HAL_DMA_STATE_BUSY, dmaRequest := true }
    else
      -- DMA_Send_Stat = HAL_ERROR; continue
      showLoop start fuel s

/-- The function `ARGB_Show`.  `none`: the start loop is still running after `fuel` passes. -/
def ARGB_Show (c : Config) (start : Nat → HAL_StatusTypeDef) (fuel : Nat) (s : Engine) :
    Option (ARGB_STATE × Engine) :=
  let s := { s with ARGB_LOC_ST := ARGB_BUSY }
  if s.BUF_COUNTER ≠ 0 ∨ s.dmaState ≠ HAL_DMA_STATE_READY then
    some (ARGB_BUSY, s)
  else
    let s := { s with PWM_BUF := showFill c s.RGB_BUF s.PWM_HI s.PWM_LO s.PWM_BUF }
    match showLoop start fuel s with
    | none => none
    | some s => some (ARGB_OK, { s with BUF_COUNTER := 2 })

/-- One pass of the `for` loop of `HAL_TIM_PWM_PulseFinishedHalfCpltCallback`. -/
def halfFillStep (c : Config) (rgb : Nat → Nat) (ctr hi lo : Nat) (pwm : Nat → Nat) (i : Nat) :
    Nat → Nat :=
  if c.family = SK6812 then
    let pwm := wr pwm i (if ((rgb (4 * ctr) <<< i) &&& 0x80) > 0 then hi else lo)
    let pwm := wr pwm (i + 8) (if ((rgb (4 * ctr + 1) <<< i) &&& 0x80) > 0 then hi else lo)
    let pwm := wr pwm (i + 16) (if ((rgb (4 * ctr + 2) <<< i) &&& 0x80) > 0 then hi else lo)
    wr pwm (i + 24) (if ((rgb (4 * ctr + 3) <<< i) &&& 0x80) > 0 then hi else lo)
  else
    let pwm := wr pwm i (if ((rgb (3 * ctr) <<< i) &&& 0x80) > 0 then hi else lo)
    let pwm := wr pwm (i + 8) (if ((rgb (3 * ctr + 1) <<< i) &&& 0x80) > 0 then hi else lo)
    wr pwm (i + 16) (if ((rgb (3 * ctr + 2) <<< i) &&& 0x80) > 0 then hi else lo)

/-- The `for (i = 0; i < 8; i++)` loop of `HAL_TIM_PWM_PulseFinishedHalfCpltCallback`. -/
def halfFill (c : Config) (rgb : Nat → Nat) (ctr hi lo : Nat) (pwm : Nat → Nat) : Nat → Nat :=
  (List.range 8).foldl (halfFillStep c rgb ctr hi lo) pwm

/-- The function `HAL_TIM_PWM_PulseFinishedHalfCpltCallback`; `sameTimer` is the outcome of
the test `htim->Instance == TIM_HANDLE.Instance`. -/
def HAL_TIM_PWM_PulseFinishedHalfCpltCallback (c : Config) (sameTimer : Bool) (s : Engine) :
    Engine :=
  if !sameTimer then s
  else if s.BUF_COUNTER < c.NUM_PIXELS then
    { s with
      PWM_BUF := halfFill c s.RGB_BUF s.BUF_COUNTER s.PWM_HI s.PWM_LO s.PWM_BUF
      BUF_COUNTER := (s.BUF_COUNTER + 1) % 65536 }
  else if s.BUF_COUNTER < c.NUM_PIXELS + 2 then
    { s with
      PWM_BUF := memset0 s.PWM_BUF 0 (PWM_BUF_LEN c / 2)
      BUF_COUNTER := (s.BUF_COUNTER + 1) % 65536 }
  else s

/-- One pass of the `for` loop of `HAL_TIM_PWM_PulseFinishedCallback`. -/
def fullFillStep (c : Config) (rgb : Nat → Nat) (ctr hi lo : Nat) (pwm : Nat → Nat) (i : Nat) :
    Nat → Nat :=
  if c.family = SK6812 then
    let pwm := wr pwm (i + 32) (if ((rgb (4 * ctr) <<< i) &&& 0x80) > 0 then hi else lo)
    let pwm := wr pwm (i + 40) (if ((rgb (4 * ctr + 1) <<< i) &&& 0x80) > 0 then hi else lo)
    let pwm := wr pwm (i + 48) (if ((rgb (4 * ctr + 2) <<< i) &&& 0x80) > 0 then hi else lo)
    wr pwm (i + 56) (if ((rgb (4 * ctr + 3) <<< i) &&& 0x80) > 0 then hi else lo)
  else
    let pwm := wr pwm (i + 24) (if ((rgb (3 * ctr) <<< i) &&& 0x80) > 0 then hi else lo)
    let pwm := wr pwm (i + 32) (if ((rgb (3 * ctr + 1) <<< i) &&& 0x80) > 0 then hi else lo)
    wr pwm (i + 40) (if ((rgb (3 * ctr + 2) <<< i) &&& 0x80) > 0 then hi else lo)

/-- The `for (i = 0; i < 8; i++)` loop of `HAL_TIM_PWM_PulseFinishedCallback`. -/
def fullFill (c : Config) (rgb : Nat → Nat) (ctr hi lo : Nat) (pwm : Nat → Nat) : Nat → Nat :=
  (List.range 8).foldl (fullFillStep c rgb ctr hi lo) pwm

/-- The function `HAL_TIM_PWM_PulseFinishedCallback`; `sameTimer` is the outcome of the test
`htim->Instance == TIM_HANDLE.Instance`. -/
def HAL_TIM_PWM_PulseFinishedCallback (c : Config) (sameTimer : Bool) (s : Engine) : Engine :=
  if !sameTimer then s
  else if s.BUF_COUNTER < c.NUM_PIXELS then
    { s with
      PWM_BUF := fullFill c s.RGB_BUF s.BUF_COUNTER s.PWM_HI s.PWM_LO s.PWM_BUF
      BUF_COUNTER := (s.BUF_COUNTER + 1) % 65536 }
  else if s.BUF_COUNTER < c.NUM_PIXELS + 2 then
    { s with
      PWM_BUF := memset0 s.PWM_BUF (PWM_BUF_LEN c / 2) (PWM_BUF_LEN c / 2)
      BUF_COUNTER := (s.BUF_COUNTER + 1) % 65536 }
  else
    -- end of transfer: __HAL_TIM_DISABLE_DMA, HAL_DMA_Abort_IT, timer disabled
    { s with
      BUF_COUNTER := 0
      dmaRequest := false
      dmaState := HAL_DMA_STATE_READY
      chState := HAL_TIM_CHANNEL_STATE_READY
      ARGB_LOC_ST := ARGB_READY }

/-! ## The Transfer Engine and the wire

The Transfer Engine emits the first half of `PWM_BUF`, calls the half-complete callback,
emits the second half, calls the complete callback, and so on while the DMA request is
enabled. -/

/-- The first half of the transfer buffer, as the sequence of duty codes on the wire. -/
def firstHalf (c : Config) (pwm : Nat → Nat) : List Nat :=
  (List.range (PWM_BUF_LEN c / 2)).map pwm

/-- The second half of the transfer buffer. -/
def secondHalf (c : Config) (pwm : Nat → Nat) : List Nat :=
  (List.range (PWM_BUF_LEN c / 2)).map fun j => pwm (PWM_BUF_LEN c / 2 + j)

/-- The half the Transfer Engine emits in its step number `k` (steps count from 0). -/
def emittedHalf (c : Config) (k : Nat) (s : Engine) : List Nat :=
  if k % 2 = 0 then firstHalf c s.PWM_BUF else secondHalf c s.PWM_BUF

/-- The callback the Transfer Engine makes after its step number `k`. -/
def callback (c : Config) (k : Nat) (s : Engine) : Engine :=
  if k % 2 = 0 then HAL_TIM_PWM_PulseFinishedHalfCpltCallback c true s
  else HAL_TIM_PWM_PulseFinishedCallback c true s

/-- The engine after the first `k` callbacks of the alternation half, full, half, ... -/
def runCallbacks (c : Config) : Nat → Engine → Engine
  | 0, s => s
  | k + 1, s => callback c k (runCallbacks c k s)

/-- The halves put on the wire from step `k` on, at most `fuel` of them: the Transfer Engine
emits a half and makes the callback, until the DMA request is disabled. -/
def transfer (c : Config) : Nat → Nat → Engine → List (List Nat)
  | 0, _, _ => []
  | fuel + 1, k, s =>
    if s.dmaRequest = true then emittedHalf c k s :: transfer c fuel (k + 1) (callback c k s)
    else []

/-! ## Reference encoding -/

/-- Duty code of the `i`-th bit of byte `b`, most significant bit first. -/
def msbCode (hi lo b i : Nat) : Nat :=
  if b.testBit (7 - i) then hi else lo

/-- The eight duty codes of a byte, most significant bit first. -/
def encodeByte (hi lo b : Nat) : List Nat :=
  (List.range 8).map (msbCode hi lo b)

/-- The channel bytes of pixel `k`, in buffer order. -/
def pixelBytes (c : Config) (rgb : Nat → Nat) (k : Nat) : List Nat :=
  (List.range c.channels).map fun m => rgb (c.channels * k + m)

/-- The duty codes of pixel `k`: its channel bytes in buffer order, each most significant
bit first. -/
def encodePixel (c : Config) (rgb : Nat → Nat) (hi lo k : Nat) : List Nat :=
  (pixelBytes c rgb k).flatMap (encodeByte hi lo)

/-- A buffer half of zero duty codes (the reset pulse). -/
def zeroHalf (c : Config) : List Nat :=
  List.replicate (PWM_BUF_LEN c / 2) 0

/-! ## The header `ARGB.h` and the reference formulas of the specification -/

/-- Modelled from the spec: the header `ARGB.h`, which decides whether the macro `RGB`
tested by `ARGB_SetWhite` is defined, is not among the sources.  The specification makes
the white channel "valid only for 4-channel families" and a parameter error "for 3-channel
families": `RGB` is defined exactly when the family is not SK6812. -/
def Config.headerOk (c : Config) : Prop :=
  c.RGB = true ↔ c.family ≠ SK6812

instance (c : Config) : Decidable c.headerOk := by
  unfold Config.headerOk
  exact inferInstance

/-- The sector `hue / 43` of the specification's conversion, in unbounded numbers. -/
def hsvSector (hue : Nat) : Nat :=
  hue / 43

/-- The remainder `rem = (hue - 43 * sector) * 6` of the specification. -/
def hsvRem (hue : Nat) : Nat :=
  (hue - 43 * hsvSector hue) * 6

/-- The value `p = (val * (255 - sat)) >> 8` of the specification. -/
def hsvP (sat val : Nat) : Nat :=
  (val * (255 - sat)) >>> 8

/-- The value `q = (val * (255 - ((sat * rem) >> 8))) >> 8` of the specification. -/
def hsvQ (hue sat val : Nat) : Nat :=
  (val * (255 - ((sat * hsvRem hue) >>> 8))) >>> 8

/-- The value `t = (val * (255 - ((sat * (255 - rem)) >> 8))) >> 8` of the specification. -/
def hsvT (hue sat val : Nat) : Nat :=
  (val * (255 - ((sat * (255 - hsvRem hue)) >>> 8))) >>> 8

/-! ## Auxiliary definitions -/

/-- The brightness divisor `256 / ((u16_t) ARGB_BR + 1)` of `ARGB_SetRGB`, at brightness
`br`. -/
def brightnessDivisor (br : Nat) : Nat :=
  256 / (br % 65536 + 1)

/-- The value of a channel `v` after `v /= 256 / ((u16_t) ARGB_BR + 1)` in `ARGB_SetRGB`, at
brightness `br`. -/
def brightnessScaled (br v : Nat) : Nat :=
  (v / brightnessDivisor br) % 256

/-- The byte `ARGB_SetRGB` stores at position `j` of `RGB_BUF`, when `j` is one of the three
positions it writes: `subp1`, `subp2` or `subp3` according to the offset of `j` in its
pixel, at brightness `br`. -/
def storedByte (c : Config) (br r g b j : Nat) : Nat :=
  if j % c.channels = 0 then
    (if c.family = SK6812 ∨ c.family = WS2811F ∨ c.family = WS2811S
      then (r / (256 / (br % 65536 + 1))) % 256
      else (if c.USE_GAMMA_CORRECTION
        then scale8 ((g / (256 / (br % 65536 + 1))) % 256) 0xB0
        else (g / (256 / (br % 65536 + 1))) % 256))
  else if j % c.channels = 1 then
    (if c.family = SK6812 ∨ c.family = WS2811F ∨ c.family = WS2811S
      then (if c.USE_GAMMA_CORRECTION
        then scale8 ((g / (256 / (br % 65536 + 1))) % 256) 0xB0
        else (g / (256 / (br % 65536 + 1))) % 256)
      else (r / (256 / (br % 65536 + 1))) % 256)
  else
    (if c.USE_GAMMA_CORRECTION
      then scale8 ((b / (256 / (br % 65536 + 1))) % 256) 0xF0
      else (b / (256 / (br % 65536 + 1))) % 256)

/-- The engine a successful `ARGB_Show` leaves behind when called on `s`
(lemma `show_admitted`). -/
def seeded (c : Config) (s : Engine) : Engine :=
  { s with
    ARGB_LOC_ST := ARGB_BUSY
    PWM_BUF := showFill c s.RGB_BUF s.PWM_HI s.PWM_LO s.PWM_BUF
    chState := HAL_TIM_CHANNEL_STATE_BUSY
    dmaStarts := s.dmaStarts + 1
    dmaState := HAL_DMA_STATE_BUSY
    dmaRequest := true
    BUF_COUNTER := 2 }

/-- The engine after `n` further callbacks, the first of them being the one of step `k`. -/
def runFrom (c : Config) : Nat → Nat → Engine → Engine
  | _, 0, s => s
  | k, n + 1, s => runFrom c (k + 1) n (callback c k s)

/-! ## Sequences of operations -/

/-- The `RGB_BUF` positions read in the loop body of `ARGB_Show`. -/
def showReadIdx (c : Config) : List Nat :=
  [0, 1, 2, 3, 4, 5] ++ (if c.family = SK6812 then [6, 7] else [])

/-- The `PWM_BUF` positions written in pass `i` of the loop of `ARGB_Show`. -/
def showWriteIdx (c : Config) (i : Nat) : List Nat :=
  [i, i + 8, i + 16, i + 24, i + 32, i + 40] ++
    (if c.family = SK6812 then [i + 48, i + 56] else [])

/-- The `RGB_BUF` positions read in the loop body of either callback, at cursor `ctr`. -/
def callbackReadIdx (c : Config) (ctr : Nat) : List Nat :=
  if c.family = SK6812 then [4 * ctr, 4 * ctr + 1, 4 * ctr + 2, 4 * ctr + 3]
  else [3 * ctr, 3 * ctr + 1, 3 * ctr + 2]

/-- The `PWM_BUF` positions written in pass `i` of the loop of the half-complete callback. -/
def halfWriteIdx (c : Config) (i : Nat) : List Nat :=
  if c.family = SK6812 then [i, i + 8, i + 16, i + 24] else [i, i + 8, i + 16]

/-- The `PWM_BUF` positions written in pass `i` of the loop of the complete callback. -/
def fullWriteIdx (c : Config) (i : Nat) : List Nat :=
  if c.family = SK6812 then [i + 32, i + 40, i + 48, i + 56] else [i + 24, i + 32, i + 40]

/-- The `RGB_BUF` positions `ARGB_Show` reads when called on `s`. -/
def showReads (c : Config) (s : Engine) : List Nat :=
  if s.BUF_COUNTER ≠ 0 ∨ s.dmaState ≠ HAL_DMA_STATE_READY then [] else showReadIdx c

/-- The `PWM_BUF` positions `ARGB_Show` writes when called on `s`. -/
def showWrites (c : Config) (s : Engine) : List Nat :=
  if s.BUF_COUNTER ≠ 0 ∨ s.dmaState ≠ HAL_DMA_STATE_READY then []
  else (List.range 8).flatMap (showWriteIdx c)

/-- The `RGB_BUF` positions a callback reads when called on `s`. -/
def callbackReads (c : Config) (sameTimer : Bool) (s : Engine) : List Nat :=
  if !sameTimer then []
  else if s.BUF_COUNTER < c.NUM_PIXELS then callbackReadIdx c s.BUF_COUNTER
  else []

/-- The `PWM_BUF` positions the half-complete callback writes when called on `s`; in the
reset branch the positions of `memset(&PWM_BUF[0], 0, PWM_BUF_LEN / 2)`. -/
def halfWrites (c : Config) (sameTimer : Bool) (s : Engine) : List Nat :=
  if !sameTimer then []
  else if s.BUF_COUNTER < c.NUM_PIXELS then (List.range 8).flatMap (halfWriteIdx c)
  else if s.BUF_COUNTER < c.NUM_PIXELS + 2 then List.range (PWM_BUF_LEN c / 2)
  else []

/-- The `PWM_BUF` positions the complete callback writes when called on `s`; in the reset
branch the positions of `memset(&PWM_BUF[PWM_BUF_LEN / 2], 0, PWM_BUF_LEN / 2)`. -/
def fullWrites (c : Config) (sameTimer : Bool) (s : Engine) : List Nat :=
  if !sameTimer then []
  else if s.BUF_COUNTER < c.NUM_PIXELS then (List.range 8).flatMap (fullWriteIdx c)
  else if s.BUF_COUNTER < c.NUM_PIXELS + 2 then
    (List.range (PWM_BUF_LEN c / 2)).map fun j => PWM_BUF_LEN c / 2 + j
  else []

/-! ## Example configurations and engines -/

/-- A start oracle: every call of `HAL_DMA_Start_IT` succeeds. -/
def startOk : Nat → HAL_StatusTypeDef :=
  fun _ => HAL_OK

/-- A start oracle: every call of `HAL_DMA_Start_IT` fails. -/
def startFails : Nat → HAL_StatusTypeDef :=
  fun _ => HAL_ERROR

/-- A WS2812 strip of 65537 pixels. -/
def wideCfg : Config :=
  { family := WS2812, NUM_PIXELS := 65537, USE_GAMMA_CORRECTION := false, RGB := false }

/-- An idle engine whose pixel 0 is (255, 255, 255) and whose other pixels are black. -/
def wideEngine : Engine :=
  { RGB_BUF := fun j => if j < 3 then 255 else 0
    PWM_BUF := fun _ => 0
    BUF_COUNTER := 0
    ARGB_BR := 255
    ARGB_LOC_ST := ARGB_READY
    PWM_HI := 2
    PWM_LO := 1
    dmaState := HAL_DMA_STATE_READY
    chState := HAL_TIM_CHANNEL_STATE_READY
    dmaStarts := 0
    dmaRequest := false }

/-- An engine right after `ARGB_Init`: cleared buffers, full brightness, codes of an
800 kHz strip on a 72 MHz timer (HIGH 42, LOW 17), HAL handles ready. -/
def idleEngine : Engine :=
  { RGB_BUF := fun _ => 0
    PWM_BUF := fun _ => 0
    BUF_COUNTER := 0
    ARGB_BR := 255
    ARGB_LOC_ST := ARGB_READY
    PWM_HI := 42
    PWM_LO := 17
    dmaState := HAL_DMA_STATE_READY
    chState := HAL_TIM_CHANNEL_STATE_READY
    dmaStarts := 0
    dmaRequest := false }

/-- The scenario of the specification: 3 pixels, an RGB family, gamma correction off. -/
def scenarioCfg : Config :=
  { family := WS2811F, NUM_PIXELS := 3, USE_GAMMA_CORRECTION := false, RGB := true }

/-- The scenario's engine: pixel 0 red, pixel 1 green, pixel 2 blue, written with
`ARGB_SetRGB` at brightness 255. -/
def scenarioEngine : Engine :=
  (ARGB_SetRGB scenarioCfg
    (ARGB_SetRGB scenarioCfg
      (ARGB_SetRGB scenarioCfg idleEngine 0 255 0 0).2 1 0 255 0).2 2 0 0 255).2

/-- The same strip with a fourth pixel (white). -/
def evenCfg : Config :=
  { family := WS2811F, NUM_PIXELS := 4, USE_GAMMA_CORRECTION := false, RGB := true }

/-- The scenario's engine with a fourth, white pixel. -/
def evenEngine : Engine :=
  (ARGB_SetRGB evenCfg scenarioEngine 3 255 255 255).2

/-- The scenario's engine with the DMA handle busy: no transfer of this driver is in
flight (state READY, cursor 0), but the Transfer Engine is not idle. -/
def stalledEngine : Engine :=
  { scenarioEngine with dmaState := HAL_DMA_STATE_BUSY }

/-- An SK6812 (RGBW) strip of 3 pixels, gamma correction on; `RGB` is not defined. -/
def rgbwCfg : Config :=
  { family := SK6812, NUM_PIXELS := 3, USE_GAMMA_CORRECTION := true, RGB := false }

/-- An idle RGBW engine at brightness 127 whose twelve colour bytes are 1, 2, ..., 12. -/
def rgbwEngine : Engine :=
  { idleEngine with RGB_BUF := fun j => if j < 12 then j + 1 else 0, ARGB_BR := 127 }

/-- A WS2812 strip of 3 pixels, gamma correction on; `RGB` is defined. -/
def grbCfg : Config :=
  { family := WS2812, NUM_PIXELS := 3, USE_GAMMA_CORRECTION := true, RGB := true }

/-- The idle engine with the cursor at the largest 16-bit value. -/
def wrapEngine : Engine :=
  { idleEngine with BUF_COUNTER := 65535 }

/-- A strip of one WS2812 pixel. -/
def singleCfg : Config :=
  { family := WS2812, NUM_PIXELS := 1, USE_GAMMA_CORRECTION := true, RGB := true }

/-- A WS2812 strip of 65534 pixels: `NUM_PIXELS + 2` is not a 16-bit value. -/
def longCfg : Config :=
  { family := WS2812, NUM_PIXELS := 65534, USE_GAMMA_CORRECTION := false, RGB := false }

/-- An engine that differs from `idleEngine` at `RGB_BUF[3]` only. -/
def pastEndEngine : Engine :=
  { idleEngine with RGB_BUF := fun j => if j = 3 then 128 else 0 }

/-- A start oracle: the first call of `HAL_DMA_Start_IT` fails, every later one would
succeed. -/
def startFailsOnce : Nat → HAL_StatusTypeDef :=
  fun n => if n = 0 then HAL_ERROR else HAL_OK

/-- A WS2812 strip of 65536 pixels: `NUM_PIXELS` is not a 16-bit value. -/
def endlessCfg : Config :=
  { family := WS2812, NUM_PIXELS := 65536, USE_GAMMA_CORRECTION := false, RGB := true }

/-! ## Lemmas on the encoder loops -/

theorem range8 : List.range 8 = [0, 1, 2, 3, 4, 5, 6, 7] := by decide

theorem bit_test (b i : Nat) (hi : i ≤ 7) :
    (((b <<< i) &&& 0x80) > 0) ↔ b.testBit (7 - i) = true := by
  have h : (0x80 : Nat) = 2 ^ 7 := by norm_num
  rw [h, Nat.and_comm, Nat.two_pow_and, Nat.testBit_shiftLeft]
  have : 7 ≥ i := hi
  cases hb : b.testBit (7 - i) <;> simp [hb, this]

theorem code_eq_msbCode (hi lo b i : Nat) (h : i ≤ 7) :
    (if ((b <<< i) &&& 0x80) > 0 then hi else lo) = msbCode hi lo b i := by
  unfold msbCode
  by_cases hb : b.testBit (7 - i) = true
  · rw [if_pos ((bit_test b i h).2 hb), if_pos hb]
  · rw [if_neg (fun hh => hb ((bit_test b i h).1 hh)), if_neg hb]

theorem halfFill_apply (c : Config) (rgb : Nat → Nat) (ctr hi lo : Nat) (pwm : Nat → Nat)
    (j : Nat) :
    halfFill c rgb ctr hi lo pwm j =
      if j < PWM_BUF_LEN c / 2 then
        (if ((rgb (c.channels * ctr + j / 8) <<< (j % 8)) &&& 0x80) > 0 then hi else lo)
      else pwm j := by
  unfold halfFill
  rw [range8]
  by_cases hf : c.family = SK6812
  · simp only [List.foldl, halfFillStep, hf, PWM_BUF_LEN, Config.channels, if_true]
    by_cases hj : j < 32
    · simp only [hj, if_true]
      interval_cases j <;> simp [wr]
    · have : ¬ (j < 4 * 8 * 2 / 2) := by omega
      simp only [this, if_false, wr]
      repeat (rw [if_neg (by omega)])
  · simp only [List.foldl, halfFillStep, hf, PWM_BUF_LEN, Config.channels, if_false]
    by_cases hj : j < 24
    · simp only [hj, if_true]
      interval_cases j <;> simp [wr]
    · have : ¬ (j < 3 * 8 * 2 / 2) := by omega
      simp only [this, if_false, wr]
      repeat (rw [if_neg (by omega)])

theorem fullFill_apply (c : Config) (rgb : Nat → Nat) (ctr hi lo : Nat) (pwm : Nat → Nat)
    (j : Nat) :
    fullFill c rgb ctr hi lo pwm j =
      if PWM_BUF_LEN c / 2 ≤ j ∧ j < PWM_BUF_LEN c then
        (if ((rgb (c.channels * ctr + (j - PWM_BUF_LEN c / 2) / 8) <<< (j % 8)) &&& 0x80) > 0
          then hi else lo)
      else pwm j := by
  unfold fullFill
  rw [range8]
  by_cases hf : c.family = SK6812
  · simp only [List.foldl, fullFillStep, hf, PWM_BUF_LEN, Config.channels, if_true]
    by_cases hj : 32 ≤ j ∧ j < 64
    · have : (4 * 8 * 2 / 2 ≤ j ∧ j < 4 * 8 * 2) := by omega
      simp only [this, and_self, if_true]
      obtain ⟨h1, h2⟩ := hj
      interval_cases j <;> simp [wr]
    · have : ¬ (4 * 8 * 2 / 2 ≤ j ∧ j < 4 * 8 * 2) := by omega
      simp only [this, if_false, wr]
      repeat (rw [if_neg (by omega)])
  · simp only [List.foldl, fullFillStep, hf, PWM_BUF_LEN, Config.channels, if_false]
    by_cases hj : 24 ≤ j ∧ j < 48
    · have : (3 * 8 * 2 / 2 ≤ j ∧ j < 3 * 8 * 2) := by omega
      simp only [this, and_self, if_true]
      obtain ⟨h1, h2⟩ := hj
      interval_cases j <;> simp [wr]
    · have : ¬ (3 * 8 * 2 / 2 ≤ j ∧ j < 3 * 8 * 2) := by omega
      simp only [this, if_false, wr]
      repeat (rw [if_neg (by omega)])

theorem showFill_apply (c : Config) (rgb : Nat → Nat) (hi lo : Nat) (pwm : Nat → Nat)
    (j : Nat) :
    showFill c rgb hi lo pwm j =
      if j < PWM_BUF_LEN c then
        (if ((rgb (j / 8) <<< (j % 8)) &&& 0x80) > 0 then hi else lo)
      else pwm j := by
  unfold showFill
  rw [range8]
  by_cases hf : c.family = SK6812
  · simp only [List.foldl, showFillStep, hf, PWM_BUF_LEN, if_true]
    by_cases hj : j < 64
    · simp only [show j < 4 * 8 * 2 by omega, if_true]
      interval_cases j <;> simp [wr]
    · have : ¬ (j < 4 * 8 * 2) := by omega
      simp only [this, if_false, wr]
      repeat (rw [if_neg (by omega)])
  · simp only [List.foldl, showFillStep, hf, PWM_BUF_LEN, if_false]
    by_cases hj : j < 48
    · simp only [show j < 3 * 8 * 2 by omega, if_true]
      interval_cases j <;> simp [wr]
    · have : ¬ (j < 3 * 8 * 2) := by omega
      simp only [this, if_false, wr]
      repeat (rw [if_neg (by omega)])

theorem half_len (c : Config) : PWM_BUF_LEN c / 2 = 8 * c.channels := by
  unfold PWM_BUF_LEN Config.channels
  split <;> rfl

theorem buf_len (c : Config) : PWM_BUF_LEN c = 8 * c.channels + 8 * c.channels := by
  unfold PWM_BUF_LEN Config.channels
  split <;> rfl

theorem encodePixel_eq_map (c : Config) (rgb : Nat → Nat) (hi lo k : Nat) :
    encodePixel c rgb hi lo k =
      (List.range (PWM_BUF_LEN c / 2)).map
        fun j => msbCode hi lo (rgb (c.channels * k + j / 8)) (j % 8) := by
  have r3 : List.range 3 = [0, 1, 2] := by decide
  have r4 : List.range 4 = [0, 1, 2, 3] := by decide
  have r24 : List.range (3 * 8 * 2 / 2) = [0, 1, 2, 3, 4, 5, 6, 7, 8, 9, 10, 11, 12, 13, 14,
      15, 16, 17, 18, 19, 20, 21, 22, 23] := by decide
  have r32 : List.range (4 * 8 * 2 / 2) = [0, 1, 2, 3, 4, 5, 6, 7, 8, 9, 10, 11, 12, 13, 14,
      15, 16, 17, 18, 19, 20, 21, 22, 23, 24, 25, 26, 27, 28, 29, 30, 31] := by decide
  by_cases hf : c.family = SK6812
  · simp only [encodePixel, pixelBytes, encodeByte, Config.channels, PWM_BUF_LEN, hf, if_true,
      r4, r32, range8]
    simp [encodeByte, range8]
  · simp only [encodePixel, pixelBytes, encodeByte, Config.channels, PWM_BUF_LEN, hf, if_false,
      r3, r24, range8]
    simp [encodeByte, range8]

theorem firstHalf_halfFill (c : Config) (rgb : Nat → Nat) (ctr hi lo : Nat) (pwm : Nat → Nat) :
    firstHalf c (halfFill c rgb ctr hi lo pwm) = encodePixel c rgb hi lo ctr := by
  rw [encodePixel_eq_map, firstHalf]
  apply List.map_congr_left
  intro j hj
  rw [List.mem_range] at hj
  rw [halfFill_apply, if_pos hj, code_eq_msbCode _ _ _ _ (by omega)]

theorem secondHalf_halfFill (c : Config) (rgb : Nat → Nat) (ctr hi lo : Nat) (pwm : Nat → Nat) :
    secondHalf c (halfFill c rgb ctr hi lo pwm) = secondHalf c pwm := by
  unfold secondHalf
  apply List.map_congr_left
  intro j _
  rw [halfFill_apply, if_neg (by omega)]

theorem secondHalf_fullFill (c : Config) (rgb : Nat → Nat) (ctr hi lo : Nat) (pwm : Nat → Nat) :
    secondHalf c (fullFill c rgb ctr hi lo pwm) = encodePixel c rgb hi lo ctr := by
  rw [encodePixel_eq_map, secondHalf]
  apply List.map_congr_left
  intro j hj
  rw [List.mem_range] at hj
  have hl := buf_len c
  have hh := half_len c
  have e1 : PWM_BUF_LEN c / 2 + j - PWM_BUF_LEN c / 2 = j := by omega
  have e2 : (PWM_BUF_LEN c / 2 + j) % 8 = j % 8 := by omega
  rw [fullFill_apply, if_pos (by omega), code_eq_msbCode _ _ _ _ (by omega), e1, e2]

theorem firstHalf_fullFill (c : Config) (rgb : Nat → Nat) (ctr hi lo : Nat) (pwm : Nat → Nat) :
    firstHalf c (fullFill c rgb ctr hi lo pwm) = firstHalf c pwm := by
  unfold firstHalf
  apply List.map_congr_left
  intro j hj
  rw [List.mem_range] at hj
  rw [fullFill_apply, if_neg (by omega)]

theorem firstHalf_showFill (c : Config) (rgb : Nat → Nat) (hi lo : Nat) (pwm : Nat → Nat) :
    firstHalf c (showFill c rgb hi lo pwm) = encodePixel c rgb hi lo 0 := by
  rw [encodePixel_eq_map, firstHalf]
  apply List.map_congr_left
  intro j hj
  rw [List.mem_range] at hj
  have hl := buf_len c
  have hh := half_len c
  have e1 : j / 8 = c.channels * 0 + j / 8 := by omega
  rw [showFill_apply, if_pos (by omega), code_eq_msbCode _ _ _ _ (by omega)]
  nth_rewrite 1 [e1]
  rfl

theorem secondHalf_showFill (c : Config) (rgb : Nat → Nat) (hi lo : Nat) (pwm : Nat → Nat) :
    secondHalf c (showFill c rgb hi lo pwm) = encodePixel c rgb hi lo 1 := by
  rw [encodePixel_eq_map, secondHalf]
  apply List.map_congr_left
  intro j hj
  rw [List.mem_range] at hj
  have hl := buf_len c
  have hh := half_len c
  have e1 : (PWM_BUF_LEN c / 2 + j) / 8 = c.channels * 1 + j / 8 := by omega
  have e2 : (PWM_BUF_LEN c / 2 + j) % 8 = j % 8 := by omega
  rw [showFill_apply, if_pos (by omega), code_eq_msbCode _ _ _ _ (by omega), e1, e2]

theorem firstHalf_memset0_first (c : Config) (pwm : Nat → Nat) :
    firstHalf c (memset0 pwm 0 (PWM_BUF_LEN c / 2)) = zeroHalf c := by
  unfold firstHalf zeroHalf
  rw [List.eq_replicate_iff]
  refine ⟨by simp, ?_⟩
  intro b hb
  rw [List.mem_map] at hb
  obtain ⟨j, hj, rfl⟩ := hb
  rw [List.mem_range] at hj
  unfold memset0
  rw [if_pos (by omega)]

theorem secondHalf_memset0_first (c : Config) (pwm : Nat → Nat) :
    secondHalf c (memset0 pwm 0 (PWM_BUF_LEN c / 2)) = secondHalf c pwm := by
  unfold secondHalf
  apply List.map_congr_left
  intro j _
  unfold memset0
  rw [if_neg (by omega)]

theorem secondHalf_memset0_second (c : Config) (pwm : Nat → Nat) :
    secondHalf c (memset0 pwm (PWM_BUF_LEN c / 2) (PWM_BUF_LEN c / 2)) = zeroHalf c := by
  unfold secondHalf zeroHalf
  rw [List.eq_replicate_iff]
  refine ⟨by simp, ?_⟩
  intro b hb
  rw [List.mem_map] at hb
  obtain ⟨j, hj, rfl⟩ := hb
  rw [List.mem_range] at hj
  unfold memset0
  rw [if_pos (by omega)]

theorem firstHalf_memset0_second (c : Config) (pwm : Nat → Nat) :
    firstHalf c (memset0 pwm (PWM_BUF_LEN c / 2) (PWM_BUF_LEN c / 2)) = firstHalf c pwm := by
  unfold firstHalf
  apply List.map_congr_left
  intro j hj
  rw [List.mem_range] at hj
  unfold memset0
  rw [if_neg (by omega)]

/-! ## Lemmas on `ARGB_Show` -/

theorem showLoop_spin_busy (start : Nat → HAL_StatusTypeDef) (fuel : Nat) (s : Engine)
    (h : s.chState ≠ HAL_TIM_CHANNEL_STATE_READY) : showLoop start fuel s = none := by
  induction fuel with
  | zero => rfl
  | succ n ih =>
    unfold showLoop
    by_cases hb : s.chState = HAL_TIM_CHANNEL_STATE_BUSY
    · rw [if_pos hb]; exact ih
    · rw [if_neg hb, if_neg h]; exact ih

theorem showLoop_ready (start : Nat → HAL_StatusTypeDef) (fuel : Nat) (s : Engine)
    (h : s.chState = HAL_TIM_CHANNEL_STATE_READY) :
    showLoop start (fuel + 1) s =
      if start s.dmaStarts = HAL_OK then
        some { s with chState := HAL_TIM_CHANNEL_STATE_BUSY, dmaStarts := s.dmaStarts + 1,
                      dmaState := HAL_DMA_STATE_BUSY, dmaRequest := true }
      else none := by
  unfold showLoop
  have hb : s.chState ≠ HAL_TIM_CHANNEL_STATE_BUSY := by rw [h]; decide
  rw [if_neg hb, if_pos h]
  by_cases hs : start s.dmaStarts = HAL_OK
  · simp [hs]
  · simp only [hs, ne_eq, not_false_eq_true, if_true, if_false]
    exact showLoop_spin_busy start fuel _ (by simp)

theorem show_admitted (c : Config) (start : Nat → HAL_StatusTypeDef) (fuel : Nat) (s : Engine)
    (h0 : s.BUF_COUNTER = 0) (hd : s.dmaState = HAL_DMA_STATE_READY) :
    ARGB_Show c start fuel s =
      if fuel ≠ 0 ∧ s.chState = HAL_TIM_CHANNEL_STATE_READY ∧ start s.dmaStarts = HAL_OK
      then some (ARGB_OK, seeded c s) else none := by
  unfold ARGB_Show
  simp only [h0, hd, ne_eq, not_true_eq_false, or_self, if_false]
  cases fuel with
  | zero => simp [showLoop]
  | succ n =>
    by_cases hc : s.chState = HAL_TIM_CHANNEL_STATE_READY
    · rw [showLoop_ready start n _ (by simpa using hc)]
      by_cases hs : start s.dmaStarts = HAL_OK
      · simp [hs, hc, seeded]
      · simp [hs]
    · rw [showLoop_spin_busy start (n + 1) _ (by simpa using hc)]
      simp [hc]

theorem show_refused (c : Config) (start : Nat → HAL_StatusTypeDef) (fuel : Nat) (s : Engine)
    (h : s.BUF_COUNTER ≠ 0 ∨ s.dmaState ≠ HAL_DMA_STATE_READY) :
    ARGB_Show c start fuel s = some (ARGB_BUSY, { s with ARGB_LOC_ST := ARGB_BUSY }) := by
  unfold ARGB_Show
  simp only [h, if_true]

theorem show_ok_inv (c : Config) (start : Nat → HAL_StatusTypeDef) (fuel : Nat) (s s1 : Engine)
    (h : ARGB_Show c start fuel s = some (ARGB_OK, s1)) :
    s.BUF_COUNTER = 0 ∧ s.dmaState = HAL_DMA_STATE_READY ∧
      s.chState = HAL_TIM_CHANNEL_STATE_READY ∧ start s.dmaStarts = HAL_OK ∧
      s1 = seeded c s := by
  by_cases hadm : s.BUF_COUNTER ≠ 0 ∨ s.dmaState ≠ HAL_DMA_STATE_READY
  · rw [show_refused c start fuel s hadm] at h
    simp at h
  · have h0 : s.BUF_COUNTER = 0 := by
      by_contra hh; exact hadm (Or.inl hh)
    have hd : s.dmaState = HAL_DMA_STATE_READY := by
      by_contra hh; exact hadm (Or.inr hh)
    rw [show_admitted c start fuel s h0 hd] at h
    split at h
    · rename_i hc
      simp only [Option.some.injEq, Prod.mk.injEq, true_and] at h
      exact ⟨h0, hd, hc.2.1, hc.2.2, h.symm⟩
    · simp at h

/-! ## Lemmas on the callbacks -/

theorem emittedHalf_add_two (c : Config) (k : Nat) (s : Engine) :
    emittedHalf c (k + 2) s = emittedHalf c k s := by
  unfold emittedHalf
  rw [Nat.add_mod_right]

theorem callback_other_half (c : Config) (k : Nat) (s : Engine) :
    emittedHalf c (k + 1) (callback c k s) = emittedHalf c (k + 1) s := by
  unfold emittedHalf callback
  by_cases hk : k % 2 = 0
  · have h1 : (k + 1) % 2 ≠ 0 := by omega
    rw [if_neg h1, if_neg h1, if_pos hk]
    unfold HAL_TIM_PWM_PulseFinishedHalfCpltCallback
    simp only [Bool.not_true, Bool.false_eq_true, if_false]
    split_ifs
    · exact secondHalf_halfFill ..
    · exact secondHalf_memset0_first ..
    · rfl
  · have h1 : (k + 1) % 2 = 0 := by omega
    rw [if_pos h1, if_pos h1, if_neg hk]
    unfold HAL_TIM_PWM_PulseFinishedCallback
    simp only [Bool.not_true, Bool.false_eq_true, if_false]
    split_ifs
    · exact firstHalf_fullFill ..
    · exact firstHalf_memset0_second ..
    · rfl

theorem callback_pixel (c : Config) (k : Nat) (s : Engine) (h : s.BUF_COUNTER < c.NUM_PIXELS) :
    emittedHalf c k (callback c k s) =
      encodePixel c s.RGB_BUF s.PWM_HI s.PWM_LO s.BUF_COUNTER := by
  unfold emittedHalf callback
  by_cases hk : k % 2 = 0
  · rw [if_pos hk, if_pos hk]
    unfold HAL_TIM_PWM_PulseFinishedHalfCpltCallback
    simp only [Bool.not_true, Bool.false_eq_true, if_false, h, if_true]
    exact firstHalf_halfFill ..
  · rw [if_neg hk, if_neg hk]
    unfold HAL_TIM_PWM_PulseFinishedCallback
    simp only [Bool.not_true, Bool.false_eq_true, if_false, h, if_true]
    exact secondHalf_fullFill ..

theorem callback_zero (c : Config) (k : Nat) (s : Engine) (h1 : c.NUM_PIXELS ≤ s.BUF_COUNTER)
    (h2 : s.BUF_COUNTER < c.NUM_PIXELS + 2) :
    emittedHalf c k (callback c k s) = zeroHalf c := by
  have h1' : ¬ s.BUF_COUNTER < c.NUM_PIXELS := by omega
  unfold emittedHalf callback
  by_cases hk : k % 2 = 0
  · rw [if_pos hk, if_pos hk]
    unfold HAL_TIM_PWM_PulseFinishedHalfCpltCallback
    simp only [Bool.not_true, Bool.false_eq_true, if_false, h1', h2, if_true]
    exact firstHalf_memset0_first ..
  · rw [if_neg hk, if_neg hk]
    unfold HAL_TIM_PWM_PulseFinishedCallback
    simp only [Bool.not_true, Bool.false_eq_true, if_false, h1', h2, if_true]
    exact secondHalf_memset0_second ..

theorem callback_step_fields (c : Config) (k : Nat) (s : Engine)
    (h : s.BUF_COUNTER < c.NUM_PIXELS + 2) :
    (callback c k s).BUF_COUNTER = (s.BUF_COUNTER + 1) % 65536 ∧
      (callback c k s).dmaRequest = s.dmaRequest ∧
      (callback c k s).RGB_BUF = s.RGB_BUF ∧
      (callback c k s).PWM_HI = s.PWM_HI ∧
      (callback c k s).PWM_LO = s.PWM_LO ∧
      (callback c k s).ARGB_LOC_ST = s.ARGB_LOC_ST := by
  unfold callback HAL_TIM_PWM_PulseFinishedHalfCpltCallback HAL_TIM_PWM_PulseFinishedCallback
  by_cases hk : k % 2 = 0 <;> by_cases h1 : s.BUF_COUNTER < c.NUM_PIXELS <;> simp [hk, h1, h]

theorem callback_keeps_transfer (c : Config) (k : Nat) (s : Engine)
    (h : ¬ (k % 2 = 1 ∧ c.NUM_PIXELS + 2 ≤ s.BUF_COUNTER)) :
    (callback c k s).dmaRequest = s.dmaRequest ∧
      (callback c k s).dmaState = s.dmaState ∧
      (callback c k s).ARGB_LOC_ST = s.ARGB_LOC_ST ∧
      (callback c k s).chState = s.chState ∧
      (callback c k s).dmaStarts = s.dmaStarts ∧
      (callback c k s).RGB_BUF = s.RGB_BUF := by
  unfold callback HAL_TIM_PWM_PulseFinishedHalfCpltCallback HAL_TIM_PWM_PulseFinishedCallback
  by_cases hk : k % 2 = 0
  · simp only [hk, if_true, Bool.not_true, Bool.false_eq_true, if_false]
    split_ifs <;> simp
  · have hk1 : k % 2 = 1 := by omega
    have h2 : s.BUF_COUNTER < c.NUM_PIXELS + 2 := by
      by_contra hh; exact h ⟨hk1, by omega⟩
    simp only [hk, if_false, Bool.not_true, Bool.false_eq_true]
    by_cases h1 : s.BUF_COUNTER < c.NUM_PIXELS <;> simp [h1, h2]

theorem callback_terminates (c : Config) (k : Nat) (s : Engine)
    (hk : k % 2 = 1) (h : c.NUM_PIXELS + 2 ≤ s.BUF_COUNTER) :
    (callback c k s).dmaRequest = false ∧
      (callback c k s).dmaState = HAL_DMA_STATE_READY ∧
      (callback c k s).ARGB_LOC_ST = ARGB_READY ∧
      (callback c k s).BUF_COUNTER = 0 ∧
      (callback c k s).PWM_BUF = s.PWM_BUF := by
  unfold callback HAL_TIM_PWM_PulseFinishedCallback
  have h1 : ¬ s.BUF_COUNTER < c.NUM_PIXELS := by omega
  have h2 : ¬ s.BUF_COUNTER < c.NUM_PIXELS + 2 := by omega
  simp [hk, h1, h2]

/-! ## Lemmas on the alternation of callbacks -/

theorem runFrom_succ (c : Config) (n : Nat) : ∀ (k : Nat) (s : Engine),
    runFrom c k (n + 1) s = callback c (k + n) (runFrom c k n s) := by
  induction n with
  | zero => intro k s; rfl
  | succ m ih =>
    intro k s
    show runFrom c (k + 1) (m + 1) (callback c k s) = _
    rw [ih (k + 1) (callback c k s)]
    have e : k + 1 + m = k + (m + 1) := by omega
    rw [e]
    rfl

theorem runFrom_zero_eq (c : Config) (n : Nat) (s : Engine) :
    runFrom c 0 n s = runCallbacks c n s := by
  induction n with
  | zero => rfl
  | succ m ih =>
    rw [runFrom_succ, ih, Nat.zero_add]
    rfl

theorem transfer_get (c : Config) (fuel : Nat) : ∀ (k : Nat) (s : Engine) (j : Nat),
    j < fuel → (∀ i, i ≤ j → (runFrom c k i s).dmaRequest = true) →
    (transfer c fuel k s)[j]? = some (emittedHalf c (k + j) (runFrom c k j s)) := by
  induction fuel with
  | zero => intro k s j hj; omega
  | succ n ih =>
    intro k s j hj hrun
    have h0 : s.dmaRequest = true := hrun 0 (Nat.zero_le _)
    unfold transfer
    rw [if_pos h0]
    cases j with
    | zero => simp [runFrom]
    | succ m =>
      rw [List.getElem?_cons_succ, ih (k + 1) (callback c k s) m (by omega)]
      · have e : k + 1 + m = k + (m + 1) := by omega
        rw [e]
        rfl
      · intro i hi
        exact hrun (i + 1) (by omega)

theorem run_pixels (c : Config) (s0 : Engine) : ∀ k : Nat,
    (k + 2 ≤ c.NUM_PIXELS ∨ 65536 ≤ c.NUM_PIXELS) →
    (runCallbacks c k (seeded c s0)).BUF_COUNTER = (k + 2) % 65536 ∧
    (runCallbacks c k (seeded c s0)).dmaRequest = true ∧
    (runCallbacks c k (seeded c s0)).RGB_BUF = s0.RGB_BUF ∧
    (runCallbacks c k (seeded c s0)).PWM_HI = s0.PWM_HI ∧
    (runCallbacks c k (seeded c s0)).PWM_LO = s0.PWM_LO ∧
    emittedHalf c k (runCallbacks c k (seeded c s0)) =
      encodePixel c s0.RGB_BUF s0.PWM_HI s0.PWM_LO (k % 65536) ∧
    emittedHalf c (k + 1) (runCallbacks c k (seeded c s0)) =
      encodePixel c s0.RGB_BUF s0.PWM_HI s0.PWM_LO ((k + 1) % 65536) := by
  intro k
  induction k with
  | zero =>
    intro _
    refine ⟨rfl, rfl, rfl, rfl, rfl, ?_, ?_⟩
    · exact firstHalf_showFill ..
    · exact secondHalf_showFill ..
  | succ n ih =>
    intro hP
    obtain ⟨hc, hr, hrgb, hhi, hlo, _, h1⟩ := ih (by omega)
    have hlt : (runCallbacks c n (seeded c s0)).BUF_COUNTER < c.NUM_PIXELS := by
      rw [hc]; omega
    obtain ⟨fc, fr, frgb, fhi, flo, _⟩ :=
      callback_step_fields c n (runCallbacks c n (seeded c s0)) (by omega)
    have hpix := callback_pixel c n (runCallbacks c n (seeded c s0)) hlt
    have hoth := callback_other_half c n (runCallbacks c n (seeded c s0))
    show (callback c n (runCallbacks c n (seeded c s0))).BUF_COUNTER = _ ∧
      (callback c n (runCallbacks c n (seeded c s0))).dmaRequest = _ ∧
      (callback c n (runCallbacks c n (seeded c s0))).RGB_BUF = _ ∧
      (callback c n (runCallbacks c n (seeded c s0))).PWM_HI = _ ∧
      (callback c n (runCallbacks c n (seeded c s0))).PWM_LO = _ ∧
      emittedHalf c (n + 1) (callback c n (runCallbacks c n (seeded c s0))) = _ ∧
      emittedHalf c (n + 1 + 1) (callback c n (runCallbacks c n (seeded c s0))) = _
    refine ⟨?_, ?_, ?_, ?_, ?_, ?_, ?_⟩
    · rw [fc, hc]; omega
    · rw [fr, hr]
    · rw [frgb, hrgb]
    · rw [fhi, hhi]
    · rw [flo, hlo]
    · rw [hoth, h1]
    · rw [emittedHalf_add_two, hpix, hrgb, hhi, hlo, hc]

theorem run_last_pixel (c : Config) (s0 : Engine) (k : Nat) (hk : k + 1 = c.NUM_PIXELS)
    (h2 : 2 ≤ c.NUM_PIXELS) :
    (runCallbacks c k (seeded c s0)).dmaRequest = true ∧
    emittedHalf c k (runCallbacks c k (seeded c s0)) =
      encodePixel c s0.RGB_BUF s0.PWM_HI s0.PWM_LO (k % 65536) := by
  obtain ⟨m, rfl⟩ : ∃ m, k = m + 1 := ⟨k - 1, by omega⟩
  obtain ⟨hc, hr, _, _, _, _, h1⟩ := run_pixels c s0 m (by omega)
  have hlt : (runCallbacks c m (seeded c s0)).BUF_COUNTER < c.NUM_PIXELS + 2 := by
    rw [hc]
    have := Nat.mod_le (m + 2) 65536
    omega
  obtain ⟨_, fr, _⟩ := callback_step_fields c m (runCallbacks c m (seeded c s0)) hlt
  have hoth := callback_other_half c m (runCallbacks c m (seeded c s0))
  show (callback c m (runCallbacks c m (seeded c s0))).dmaRequest = _ ∧
    emittedHalf c (m + 1) (callback c m (runCallbacks c m (seeded c s0))) = _
  exact ⟨by rw [fr, hr], by rw [hoth, h1]⟩

/-! ## Lemmas on `ARGB_SetRGB` -/

theorem wrap_index (n i : Nat) (hi : i < 65536) :
    (if i ≥ n then (i - i / n % 65536 * n) % 65536 else i) = i % n := by
  by_cases h : i ≥ n
  · rw [if_pos h]
    have h1 : i / n % 65536 = i / n :=
      Nat.mod_eq_of_lt (Nat.lt_of_le_of_lt (Nat.div_le_self i n) hi)
    have h2 : i - i / n * n = i % n := by
      have := Nat.div_add_mod i n
      have hc : n * (i / n) = i / n * n := Nat.mul_comm _ _
      omega
    have h3 : i % n ≤ i := Nat.mod_le i n
    rw [h1, h2]
    exact Nat.mod_eq_of_lt (by omega)
  · rw [if_neg h]
    exact (Nat.mod_eq_of_lt (by omega)).symm

theorem setRGB_wrap (c : Config) (s : Engine) (i r g b : Nat) (hi : i < 65536) :
    ARGB_SetRGB c s i r g b = ARGB_SetRGB c s (i % c.NUM_PIXELS) r g b := by
  have hm : i % c.NUM_PIXELS < 65536 := Nat.lt_of_le_of_lt (Nat.mod_le _ _) hi
  unfold ARGB_SetRGB
  simp only []
  rw [wrap_index c.NUM_PIXELS i hi, wrap_index c.NUM_PIXELS (i % c.NUM_PIXELS) hm, Nat.mod_mod]

theorem wr3_apply (buf : Nat → Nat) (a x y z j : Nat) :
    wr (wr (wr buf a x) (a + 1) y) (a + 2) z j =
      if j = a then x else if j = a + 1 then y else if j = a + 2 then z else buf j := by
  unfold wr
  split_ifs <;> first | rfl | omega

theorem setRGB_buf (c : Config) (s : Engine) (i r g b : Nat) (hi : i < 65536) (j : Nat) :
    (ARGB_SetRGB c s i r g b).2.RGB_BUF j =
      if j = c.channels * (i % c.NUM_PIXELS) then
        (if c.family = SK6812 ∨ c.family = WS2811F ∨ c.family = WS2811S
          then (r / (256 / (s.ARGB_BR % 65536 + 1))) % 256
          else (if c.USE_GAMMA_CORRECTION
            then scale8 ((g / (256 / (s.ARGB_BR % 65536 + 1))) % 256) 0xB0
            else (g / (256 / (s.ARGB_BR % 65536 + 1))) % 256))
      else if j = c.channels * (i % c.NUM_PIXELS) + 1 then
        (if c.family = SK6812 ∨ c.family = WS2811F ∨ c.family = WS2811S
          then (if c.USE_GAMMA_CORRECTION
            then scale8 ((g / (256 / (s.ARGB_BR % 65536 + 1))) % 256) 0xB0
            else (g / (256 / (s.ARGB_BR % 65536 + 1))) % 256)
          else (r / (256 / (s.ARGB_BR % 65536 + 1))) % 256)
      else if j = c.channels * (i % c.NUM_PIXELS) + 2 then
        (if c.USE_GAMMA_CORRECTION
          then scale8 ((b / (256 / (s.ARGB_BR % 65536 + 1))) % 256) 0xF0
          else (b / (256 / (s.ARGB_BR % 65536 + 1))) % 256)
      else s.RGB_BUF j := by
  unfold ARGB_SetRGB Config.channels
  simp only []
  rw [wrap_index c.NUM_PIXELS i hi]
  by_cases hf : c.family = SK6812
  · simp only [hf, if_true, wr3_apply]
  · simp only [hf, if_false, wr3_apply]

theorem scale8_small (x k : Nat) (hx : x < 256) (hk : k ≤ 256) :
    scale8 x k = (x * k) >>> 8 := by
  unfold scale8
  apply Nat.mod_eq_of_lt
  rw [Nat.shiftRight_eq_div_pow]
  have : x * k < 256 * 256 := by
    calc x * k ≤ x * 256 := Nat.mul_le_mul_left _ hk
      _ < 256 * 256 := Nat.mul_lt_mul_of_pos_right hx (by norm_num)
  omega

/-! ## Admission control -/

theorem set_busy_id (s : Engine) (h : s.ARGB_LOC_ST = ARGB_BUSY) :
    { s with ARGB_LOC_ST := ARGB_BUSY } = s := by
  cases s
  simp only at h
  subst h
  rfl

theorem run_in_flight (c : Config) (s0 : Engine) : ∀ j : Nat,
    (∀ i, i < j →
      ¬ (i % 2 = 1 ∧ c.NUM_PIXELS + 2 ≤ (runCallbacks c i (seeded c s0)).BUF_COUNTER)) →
    (runCallbacks c j (seeded c s0)).dmaState = HAL_DMA_STATE_BUSY ∧
    (runCallbacks c j (seeded c s0)).ARGB_LOC_ST = ARGB_BUSY ∧
    (runCallbacks c j (seeded c s0)).dmaRequest = true := by
  intro j
  induction j with
  | zero => intro _; exact ⟨rfl, rfl, rfl⟩
  | succ n ih =>
    intro h
    obtain ⟨h1, h2, h3⟩ := ih (fun i hi => h i (by omega))
    obtain ⟨k1, k2, k3, _⟩ :=
      callback_keeps_transfer c n (runCallbacks c n (seeded c s0)) (h n (by omega))
    show (callback c n (runCallbacks c n (seeded c s0))).dmaState = _ ∧
      (callback c n (runCallbacks c n (seeded c s0))).ARGB_LOC_ST = _ ∧
      (callback c n (runCallbacks c n (seeded c s0))).dmaRequest = _
    exact ⟨by rw [k2, h1], by rw [k3, h2], by rw [k1, h3]⟩

theorem callback_noop (c : Config) (k : Nat) (s : Engine) (hk : k % 2 = 0)
    (h : c.NUM_PIXELS + 2 ≤ s.BUF_COUNTER) : callback c k s = s := by
  unfold callback HAL_TIM_PWM_PulseFinishedHalfCpltCallback
  have h1 : ¬ s.BUF_COUNTER < c.NUM_PIXELS := by omega
  have h2 : ¬ s.BUF_COUNTER < c.NUM_PIXELS + 2 := by omega
  simp [hk, h1, h2]

theorem run_cursor (c : Config) (s0 : Engine) (h16 : c.NUM_PIXELS + 2 < 65536) : ∀ k : Nat,
    k ≤ c.NUM_PIXELS →
    (runCallbacks c k (seeded c s0)).BUF_COUNTER = k + 2 ∧
    (runCallbacks c k (seeded c s0)).ARGB_LOC_ST = ARGB_BUSY := by
  intro k
  induction k with
  | zero => intro _; exact ⟨rfl, rfl⟩
  | succ n ih =>
    intro hk
    obtain ⟨hc, hst⟩ := ih (by omega)
    obtain ⟨fc, _, _, _, _, fst⟩ :=
      callback_step_fields c n (runCallbacks c n (seeded c s0)) (by omega)
    show (callback c n (runCallbacks c n (seeded c s0))).BUF_COUNTER = _ ∧
      (callback c n (runCallbacks c n (seeded c s0))).ARGB_LOC_ST = _
    refine ⟨?_, by rw [fst, hst]⟩
    rw [fc, hc]
    exact Nat.mod_eq_of_lt (by omega)

theorem run_never_ready (c : Config) (s0 : Engine) (h : 65536 ≤ c.NUM_PIXELS + 2) :
    ∀ j : Nat, (runCallbacks c j (seeded c s0)).BUF_COUNTER < 65536 ∧
      (runCallbacks c j (seeded c s0)).ARGB_LOC_ST = ARGB_BUSY ∧
      (runCallbacks c j (seeded c s0)).dmaRequest = true := by
  intro j
  induction j with
  | zero => exact ⟨by show 2 < 65536; norm_num, rfl, rfl⟩
  | succ n ih =>
    obtain ⟨hc, hst, hr⟩ := ih
    obtain ⟨fc, fr, _, _, _, fst⟩ :=
      callback_step_fields c n (runCallbacks c n (seeded c s0)) (by omega)
    show (callback c n (runCallbacks c n (seeded c s0))).BUF_COUNTER < 65536 ∧
      (callback c n (runCallbacks c n (seeded c s0))).ARGB_LOC_ST = _ ∧
      (callback c n (runCallbacks c n (seeded c s0))).dmaRequest = _
    refine ⟨?_, by rw [fst, hst], by rw [fr, hr]⟩
    rw [fc]
    exact Nat.mod_lt _ (by norm_num)

theorem transfer_eq_map (c : Config) (len : Nat) : ∀ (fuel k : Nat) (s : Engine),
    len < fuel → (∀ i, i < len → (runFrom c k i s).dmaRequest = true) →
    (runFrom c k len s).dmaRequest = false →
    transfer c fuel k s =
      (List.range len).map fun j => emittedHalf c (k + j) (runFrom c k j s) := by
  induction len with
  | zero =>
    intro fuel k s hf _ hstop
    obtain ⟨n, rfl⟩ : ∃ n, fuel = n + 1 := ⟨fuel - 1, by omega⟩
    have h0 : s.dmaRequest = false := hstop
    simp [transfer, h0]
  | succ m ih =>
    intro fuel k s hf hrun hstop
    obtain ⟨n, rfl⟩ : ∃ n, fuel = n + 1 := ⟨fuel - 1, by omega⟩
    have h0 : s.dmaRequest = true := hrun 0 (by omega)
    unfold transfer
    rw [if_pos h0, ih n (k + 1) (callback c k s) (by omega)
      (fun i hi => hrun (i + 1) (by omega)) hstop, List.range_succ_eq_map, List.map_cons,
      List.map_map]
    congr 1
    apply List.map_congr_left
    intro j _
    show emittedHalf c (k + 1 + j) (runFrom c (k + 1) j (callback c k s)) =
      emittedHalf c (k + (j + 1)) (runFrom c k (j + 1) s)
    have e : k + 1 + j = k + (j + 1) := by omega
    rw [e]
    rfl

theorem run_tail (c : Config) (s0 : Engine) (h2 : 2 ≤ c.NUM_PIXELS)
    (h16 : c.NUM_PIXELS + 2 < 65536) : ∀ k : Nat, k ≤ c.NUM_PIXELS →
    (runCallbacks c k (seeded c s0)).BUF_COUNTER = k + 2 ∧
    (runCallbacks c k (seeded c s0)).dmaRequest = true ∧
    (runCallbacks c k (seeded c s0)).RGB_BUF = s0.RGB_BUF ∧
    (runCallbacks c k (seeded c s0)).PWM_HI = s0.PWM_HI ∧
    (runCallbacks c k (seeded c s0)).PWM_LO = s0.PWM_LO ∧
    emittedHalf c k (runCallbacks c k (seeded c s0)) =
      (if k < c.NUM_PIXELS then encodePixel c s0.RGB_BUF s0.PWM_HI s0.PWM_LO k
        else zeroHalf c) ∧
    emittedHalf c (k + 1) (runCallbacks c k (seeded c s0)) =
      (if k + 1 < c.NUM_PIXELS then encodePixel c s0.RGB_BUF s0.PWM_HI s0.PWM_LO (k + 1)
        else zeroHalf c) := by
  intro k
  induction k with
  | zero =>
    intro _
    refine ⟨rfl, rfl, rfl, rfl, rfl, ?_, ?_⟩
    · rw [if_pos (by omega)]; exact firstHalf_showFill ..
    · rw [if_pos (by omega)]; exact secondHalf_showFill ..
  | succ n ih =>
    intro hk
    obtain ⟨hc, hr, hrgb, hhi, hlo, _, h1⟩ := ih (by omega)
    obtain ⟨fc, fr, frgb, fhi, flo, _⟩ :=
      callback_step_fields c n (runCallbacks c n (seeded c s0)) (by omega)
    have hoth := callback_other_half c n (runCallbacks c n (seeded c s0))
    show (callback c n (runCallbacks c n (seeded c s0))).BUF_COUNTER = _ ∧
      (callback c n (runCallbacks c n (seeded c s0))).dmaRequest = _ ∧
      (callback c n (runCallbacks c n (seeded c s0))).RGB_BUF = _ ∧
      (callback c n (runCallbacks c n (seeded c s0))).PWM_HI = _ ∧
      (callback c n (runCallbacks c n (seeded c s0))).PWM_LO = _ ∧
      emittedHalf c (n + 1) (callback c n (runCallbacks c n (seeded c s0))) = _ ∧
      emittedHalf c (n + 1 + 1) (callback c n (runCallbacks c n (seeded c s0))) = _
    refine ⟨?_, ?_, ?_, ?_, ?_, ?_, ?_⟩
    · rw [fc, hc]; exact Nat.mod_eq_of_lt (by omega)
    · rw [fr, hr]
    · rw [frgb, hrgb]
    · rw [fhi, hhi]
    · rw [flo, hlo]
    · rw [hoth, h1]
    · rw [emittedHalf_add_two]
      by_cases hp : n + 2 < c.NUM_PIXELS
      · rw [if_pos (by omega),
          callback_pixel c n (runCallbacks c n (seeded c s0)) (by omega), hrgb, hhi, hlo, hc]
      · rw [if_neg (by omega),
          callback_zero c n (runCallbacks c n (seeded c s0)) (by omega) (by omega)]

/-- The whole wire of an odd strip: the pixels in order, then one zero half, then nothing
(the complete callback that follows the first zero half stops the transfer). -/
theorem reset_tail_odd (c : Config) (s0 : Engine) (h2 : 2 ≤ c.NUM_PIXELS)
    (hodd : c.NUM_PIXELS % 2 = 1) (h16 : c.NUM_PIXELS + 2 < 65536)
    (n : Nat) (hn : c.NUM_PIXELS + 1 < n) :
    transfer c n 0 (seeded c s0) =
      (List.range (c.NUM_PIXELS + 1)).map fun k =>
        if k < c.NUM_PIXELS then encodePixel c s0.RGB_BUF s0.PWM_HI s0.PWM_LO k
        else zeroHalf c := by
  obtain ⟨hcN, _⟩ := run_tail c s0 h2 h16 c.NUM_PIXELS (Nat.le_refl _)
  have hstop : (runFrom c 0 (c.NUM_PIXELS + 1) (seeded c s0)).dmaRequest = false := by
    rw [runFrom_zero_eq]
    exact (callback_terminates c c.NUM_PIXELS _ hodd (by omega)).1
  have hrun : ∀ i, i < c.NUM_PIXELS + 1 →
      (runFrom c 0 i (seeded c s0)).dmaRequest = true := by
    intro i hi
    rw [runFrom_zero_eq]
    exact (run_tail c s0 h2 h16 i (by omega)).2.1
  rw [transfer_eq_map c (c.NUM_PIXELS + 1) n 0 (seeded c s0) hn hrun hstop]
  apply List.map_congr_left
  intro j hj
  rw [List.mem_range] at hj
  rw [runFrom_zero_eq, Nat.zero_add]
  exact (run_tail c s0 h2 h16 j (by omega)).2.2.2.2.2.1

/-- The callbacks of an odd strip: BUSY after each of the first `NUM_PIXELS` callbacks,
READY after callback number `NUM_PIXELS + 1`. -/
theorem full_cycle_odd (c : Config) (s0 : Engine) (hodd : c.NUM_PIXELS % 2 = 1)
    (h16 : c.NUM_PIXELS + 2 < 65536) :
    (∀ j, j < c.NUM_PIXELS + 1 →
      ARGB_Ready (runCallbacks c j (seeded c s0)) = ARGB_BUSY) ∧
    ARGB_Ready (runCallbacks c (c.NUM_PIXELS + 1) (seeded c s0)) = ARGB_READY := by
  obtain ⟨hc, _⟩ := run_cursor c s0 h16 c.NUM_PIXELS (Nat.le_refl _)
  refine ⟨?_, ?_⟩
  · intro j hj
    exact (run_cursor c s0 h16 j (by omega)).2
  · exact (callback_terminates c c.NUM_PIXELS _ hodd (by omega)).2.2.1

/-- What a refused `ARGB_Show` does: the state is set to BUSY, nothing else changes. -/
theorem refused_trigger_effect (c : Config) (start : Nat → HAL_StatusTypeDef) (fuel : Nat)
    (s s1 : Engine) (h : ARGB_Show c start fuel s = some (ARGB_BUSY, s1)) :
    (s.BUF_COUNTER ≠ 0 ∨ s.dmaState ≠ HAL_DMA_STATE_READY) ∧
      s1 = { s with ARGB_LOC_ST := ARGB_BUSY } := by
  by_cases hadm : s.BUF_COUNTER ≠ 0 ∨ s.dmaState ≠ HAL_DMA_STATE_READY
  · rw [show_refused c start fuel s hadm] at h
    simp only [Option.some.injEq, Prod.mk.injEq, true_and] at h
    exact ⟨hadm, h.symm⟩
  · have g0 : s.BUF_COUNTER = 0 := by
      by_contra hh; exact hadm (Or.inl hh)
    have gd : s.dmaState = HAL_DMA_STATE_READY := by
      by_contra hh; exact hadm (Or.inr hh)
    rw [show_admitted c start fuel s g0 gd] at h
    split at h
    · simp at h
    · exact Option.noConfusion h

/-! ## Lemmas on the fill loops -/

theorem channels_ge (c : Config) : 3 ≤ c.channels ∧ c.channels ≤ 4 := by
  unfold Config.channels
  split <;> omega

theorem divmod_of_eq (ch p t j : Nat) (ht : t < ch) (h : j = ch * p + t) :
    j / ch = p ∧ j % ch = t := by
  subst h
  constructor
  · rw [Nat.mul_add_div (by omega), Nat.div_eq_of_lt ht, Nat.add_zero]
  · rw [Nat.mul_add_mod, Nat.mod_eq_of_lt ht]

theorem setRGB_buf_pixel (c : Config) (s : Engine) (i r g b : Nat) (hi : i < 65536) (j : Nat) :
    (ARGB_SetRGB c s i r g b).2.RGB_BUF j =
      if j / c.channels = i % c.NUM_PIXELS ∧ j % c.channels < 3
        then storedByte c s.ARGB_BR r g b j else s.RGB_BUF j := by
  obtain ⟨h3, h4⟩ := channels_ge c
  rw [setRGB_buf c s i r g b hi j]
  have hdm := Nat.div_add_mod j c.channels
  by_cases h0 : j = c.channels * (i % c.NUM_PIXELS)
  · obtain ⟨hd, hm⟩ := divmod_of_eq c.channels (i % c.NUM_PIXELS) 0 j (by omega) h0
    have hc : j / c.channels = i % c.NUM_PIXELS ∧ j % c.channels < 3 := ⟨hd, by omega⟩
    rw [if_pos h0, if_pos hc]
    unfold storedByte
    rw [if_pos hm]
  · rw [if_neg h0]
    by_cases h1 : j = c.channels * (i % c.NUM_PIXELS) + 1
    · obtain ⟨hd, hm⟩ := divmod_of_eq c.channels (i % c.NUM_PIXELS) 1 j (by omega) h1
      have hc : j / c.channels = i % c.NUM_PIXELS ∧ j % c.channels < 3 := ⟨hd, by omega⟩
      have hm0 : ¬ j % c.channels = 0 := by omega
      rw [if_pos h1, if_pos hc]
      unfold storedByte
      rw [if_neg hm0, if_pos hm]
    · rw [if_neg h1]
      by_cases h2 : j = c.channels * (i % c.NUM_PIXELS) + 2
      · obtain ⟨hd, hm⟩ := divmod_of_eq c.channels (i % c.NUM_PIXELS) 2 j (by omega) h2
        have hc : j / c.channels = i % c.NUM_PIXELS ∧ j % c.channels < 3 := ⟨hd, by omega⟩
        have hm0 : ¬ j % c.channels = 0 := by omega
        have hm1 : ¬ j % c.channels = 1 := by omega
        rw [if_pos h2, if_pos hc]
        unfold storedByte
        rw [if_neg hm0, if_neg hm1]
      · have hc : ¬ (j / c.channels = i % c.NUM_PIXELS ∧ j % c.channels < 3) := by
          rintro ⟨hd, hm⟩
          rw [← hd] at h0 h1 h2
          omega
        rw [if_neg h2, if_neg hc]

theorem foldl_setRGB (c : Config) (r g b : Nat) (l : List Nat) : ∀ s : Engine,
    (∀ i ∈ l, i < 65536) →
    (l.foldl (fun t k => (ARGB_SetRGB c t k r g b).2) s).ARGB_BR = s.ARGB_BR ∧
    (l.foldl (fun t k => (ARGB_SetRGB c t k r g b).2) s).BUF_COUNTER = s.BUF_COUNTER ∧
    ∀ j, (l.foldl (fun t k => (ARGB_SetRGB c t k r g b).2) s).RGB_BUF j =
      if j % c.channels < 3 ∧ ∃ i ∈ l, i % c.NUM_PIXELS = j / c.channels
        then storedByte c s.ARGB_BR r g b j else s.RGB_BUF j := by
  induction l with
  | nil => intro s _; simp
  | cons a t ih =>
    intro s hl
    obtain ⟨h1, h2, h3⟩ := ih (ARGB_SetRGB c s a r g b).2
      (fun i hi => hl i (List.mem_cons_of_mem _ hi))
    have ha : a < 65536 := hl a (List.mem_cons_self _ _)
    rw [List.foldl_cons]
    refine ⟨by rw [h1]; rfl, by rw [h2]; rfl, ?_⟩
    intro j
    rw [h3 j, setRGB_buf_pixel c s a r g b ha j]
    have hbr : (ARGB_SetRGB c s a r g b).2.ARGB_BR = s.ARGB_BR := rfl
    rw [hbr]
    by_cases hm : j % c.channels < 3
    · by_cases ht : ∃ i ∈ t, i % c.NUM_PIXELS = j / c.channels
      · obtain ⟨i, hi, he⟩ := ht
        rw [if_pos ⟨hm, i, hi, he⟩, if_pos ⟨hm, i, List.mem_cons_of_mem _ hi, he⟩]
      · rw [if_neg (fun h => ht h.2)]
        by_cases hp : j / c.channels = a % c.NUM_PIXELS
        · rw [if_pos ⟨hp, hm⟩, if_pos ⟨hm, a, List.mem_cons_self _ _, hp.symm⟩]
        · rw [if_neg (fun h => hp h.1), if_neg]
          rintro ⟨_, i, hi, he⟩
          rcases List.mem_cons.1 hi with rfl | hi
          · exact hp he.symm
          · exact ht ⟨i, hi, he⟩
    · rw [if_neg (fun h => hm h.1), if_neg (fun h => hm h.2), if_neg (fun h => hm h.1)]

theorem fillRGBLoop_eq (c : Config) (r g b : Nat) (hN : c.NUM_PIXELS < 65536) :
    ∀ (fuel i : Nat) (s : Engine), i ≤ c.NUM_PIXELS → c.NUM_PIXELS - i < fuel →
    fillRGBLoop c r g b fuel i s =
      some ((List.range' i (c.NUM_PIXELS - i)).foldl
        (fun t k => (ARGB_SetRGB c t k r g b).2) s) := by
  intro fuel
  induction fuel with
  | zero => intro i s _ hf; omega
  | succ n ih =>
    intro i s hi hf
    unfold fillRGBLoop
    by_cases hlt : i < c.NUM_PIXELS
    · have hm : (i + 1) % 65536 = i + 1 := Nat.mod_eq_of_lt (by omega)
      have hr : c.NUM_PIXELS - i = (c.NUM_PIXELS - (i + 1)) + 1 := by omega
      rw [if_pos hlt, hm, ih (i + 1) _ (by omega) (by omega), hr, List.range'_succ,
        List.foldl_cons]
    · have hz : c.NUM_PIXELS - i = 0 := by omega
      rw [if_neg hlt, hz]
      rfl


theorem setWhite_buf (c : Config) (s : Engine) (i w : Nat) (h : c.RGB = false) (j : Nat) :
    (ARGB_SetWhite c s i w).1 = ARGB_OK ∧
    (ARGB_SetWhite c s i w).2.RGB_BUF j =
      if j = 4 * i + 3 then (w / (256 / (s.ARGB_BR % 65536 + 1))) % 256 else s.RGB_BUF j := by
  unfold ARGB_SetWhite
  simp [h, wr]

theorem foldl_setWhite (c : Config) (w : Nat) (hr : c.RGB = false) (l : List Nat) :
    ∀ s : Engine,
    (l.foldl (fun t k => (ARGB_SetWhite c t k w).2) s).ARGB_BR = s.ARGB_BR ∧
    (l.foldl (fun t k => (ARGB_SetWhite c t k w).2) s).BUF_COUNTER = s.BUF_COUNTER ∧
    ∀ j, (l.foldl (fun t k => (ARGB_SetWhite c t k w).2) s).RGB_BUF j =
      if ∃ i ∈ l, j = 4 * i + 3
        then (w / (256 / (s.ARGB_BR % 65536 + 1))) % 256 else s.RGB_BUF j := by
  induction l with
  | nil => intro s; simp
  | cons a t ih =>
    intro s
    obtain ⟨h1, h2, h3⟩ := ih (ARGB_SetWhite c s a w).2
    have hbr : (ARGB_SetWhite c s a w).2.ARGB_BR = s.ARGB_BR := by
      unfold ARGB_SetWhite; simp [hr]
    have hctr : (ARGB_SetWhite c s a w).2.BUF_COUNTER = s.BUF_COUNTER := by
      unfold ARGB_SetWhite; simp [hr]
    rw [List.foldl_cons]
    refine ⟨by rw [h1, hbr], by rw [h2, hctr], ?_⟩
    intro j
    rw [h3 j, (setWhite_buf c s a w hr j).2, hbr]
    by_cases ht : ∃ i ∈ t, j = 4 * i + 3
    · obtain ⟨i, hi, he⟩ := ht
      rw [if_pos ⟨i, hi, he⟩, if_pos ⟨i, List.mem_cons_of_mem _ hi, he⟩]
    · rw [if_neg ht]
      by_cases hp : j = 4 * a + 3
      · rw [if_pos hp, if_pos ⟨a, List.mem_cons_self _ _, hp⟩]
      · rw [if_neg hp, if_neg]
        rintro ⟨i, hi, he⟩
        rcases List.mem_cons.1 hi with rfl | hi
        · exact hp he
        · exact ht ⟨i, hi, he⟩

theorem fillWhiteLoop_eq (c : Config) (w : Nat) (hN : c.NUM_PIXELS < 65536) :
    ∀ (fuel i : Nat) (s : Engine), i ≤ c.NUM_PIXELS → c.NUM_PIXELS - i < fuel →
    fillWhiteLoop c w fuel i s =
      some ((List.range' i (c.NUM_PIXELS - i)).foldl
        (fun t k => (ARGB_SetWhite c t k w).2) s) := by
  intro fuel
  induction fuel with
  | zero => intro i s _ hf; omega
  | succ n ih =>
    intro i s hi hf
    unfold fillWhiteLoop
    by_cases hlt : i < c.NUM_PIXELS
    · have hm : (i + 1) % 65536 = i + 1 := Nat.mod_eq_of_lt (by omega)
      have hr : c.NUM_PIXELS - i = (c.NUM_PIXELS - (i + 1)) + 1 := by omega
      rw [if_pos hlt, hm, ih (i + 1) _ (by omega) (by omega), hr, List.range'_succ,
        List.foldl_cons]
    · have hz : c.NUM_PIXELS - i = 0 := by omega
      rw [if_neg hlt, hz]
      rfl

theorem fillRGB_returns (c : Config) (fuel : Nat) (s : Engine) (r g b : Nat)
    (hN : c.NUM_PIXELS < 65536) (hf : c.NUM_PIXELS < fuel) :
    ARGB_FillRGB c fuel s r g b =
      some (ARGB_OK, (List.range' 0 c.NUM_PIXELS).foldl
        (fun t k => (ARGB_SetRGB c t k r g b).2) s) := by
  unfold ARGB_FillRGB
  rw [fillRGBLoop_eq c r g b hN fuel 0 s (Nat.zero_le _) (by omega)]
  rfl

theorem fillWhite_returns (c : Config) (fuel : Nat) (s : Engine) (w : Nat)
    (hN : c.NUM_PIXELS < 65536) (hf : c.NUM_PIXELS < fuel) :
    ARGB_FillWhite c fuel s w =
      some (ARGB_OK, (List.range' 0 c.NUM_PIXELS).foldl
        (fun t k => (ARGB_SetWhite c t k w).2) s) := by
  unfold ARGB_FillWhite
  rw [fillWhiteLoop_eq c w hN fuel 0 s (Nat.zero_le _) (by omega)]
  rfl

theorem mem_range'_zero (n i : Nat) : i ∈ List.range' 0 n ↔ i < n := by
  rw [List.mem_range'_1]
  omega

theorem covers_iff (c : Config) (l : List Nat) (hl : ∀ i, i ∈ l ↔ i < c.NUM_PIXELS) (j : Nat) :
    (∃ i ∈ l, i % c.NUM_PIXELS = j / c.channels) ↔ j / c.channels < c.NUM_PIXELS := by
  constructor
  · rintro ⟨i, hi, he⟩
    have hlt := (hl i).1 hi
    rw [← he]
    exact Nat.mod_lt _ (by omega)
  · intro h
    exact ⟨j / c.channels, (hl _).2 h, Nat.mod_eq_of_lt h⟩

theorem storedByte_zero (c : Config) (br j : Nat) : storedByte c br 0 0 0 j = 0 := by
  unfold storedByte scale8
  simp

/-! ## Lemmas on `HSV2RGB` -/

theorem hsv_bounds (hue sat val : Nat) (hh : hue < 256) (hs1 : 1 ≤ sat) (hs : sat < 256)
    (hv : val < 256) :
    hsvSector hue ≤ 5 ∧ hsvRem hue ≤ 252 ∧ hsvP sat val ≤ 254 ∧ hsvQ hue sat val ≤ 254 ∧
      hsvT hue sat val ≤ 254 := by
  have h256 : (2 : Nat) ^ 8 = 256 := by norm_num
  have key : ∀ y, y ≤ 255 → (val * y) >>> 8 ≤ 254 := by
    intro y hy
    rw [Nat.shiftRight_eq_div_pow, h256]
    have : val * y ≤ 255 * 255 := Nat.mul_le_mul (by omega) hy
    omega
  refine ⟨?_, ?_, ?_, ?_, ?_⟩
  · unfold hsvSector; omega
  · unfold hsvRem hsvSector; omega
  · exact key _ (by omega)
  · exact key _ (by omega)
  · exact key _ (by omega)

theorem HSV2RGB_eq (hue sat val : Nat) (hh : hue < 256) (hs1 : 1 ≤ sat) (hs : sat < 256)
    (hv : val < 256) :
    HSV2RGB hue sat val =
      match hsvSector hue with
      | 0 => (val, hsvT hue sat val, hsvP sat val)
      | 1 => (hsvQ hue sat val, val, hsvP sat val)
      | 2 => (hsvP sat val, val, hsvT hue sat val)
      | 3 => (hsvP sat val, hsvQ hue sat val, val)
      | 4 => (hsvT hue sat val, hsvP sat val, val)
      | _ => (val, hsvP sat val, hsvQ hue sat val) := by
  obtain ⟨b1, b2, b3, b4, b5⟩ := hsv_bounds hue sat val hh hs1 hs hv
  have e1 : (hue / 43) % 256 = hsvSector hue := by
    unfold hsvSector; omega
  have e2 : ((hue - hsvSector hue * 43) * 6) % 256 = hsvRem hue := by
    have : hsvRem hue = (hue - hsvSector hue * 43) * 6 := by
      unfold hsvRem; rw [Nat.mul_comm 43 (hsvSector hue)]
    rw [← this]
    exact Nat.mod_eq_of_lt (by omega)
  have e3 : ((val * (255 - sat)) >>> 8) % 256 = hsvP sat val :=
    Nat.mod_eq_of_lt (by unfold hsvP at b3; omega)
  have e4 : ((val * (255 - ((sat * hsvRem hue) >>> 8))) >>> 8) % 256 = hsvQ hue sat val :=
    Nat.mod_eq_of_lt (by unfold hsvQ at b4; omega)
  have e5 : ((val * (255 - ((sat * (255 - hsvRem hue)) >>> 8))) >>> 8) % 256
      = hsvT hue sat val :=
    Nat.mod_eq_of_lt (by unfold hsvT at b5; omega)
  unfold HSV2RGB
  rw [if_neg (by omega)]
  simp only []
  rw [e1, e2, e3, e4, e5]

theorem hsv_order (hue sat val : Nat) (hs : sat < 256) :
    hsvP sat val ≤ hsvQ hue sat val ∧ hsvQ hue sat val ≤ val ∧
    hsvP sat val ≤ hsvT hue sat val ∧ hsvT hue sat val ≤ val ∧ hsvP sat val ≤ val := by
  have h256 : (2 : Nat) ^ 8 = 256 := by norm_num
  have up : ∀ y, y ≤ 255 → (val * y) >>> 8 ≤ val := by
    intro y hy
    rw [Nat.shiftRight_eq_div_pow, h256]
    apply Nat.div_le_of_le_mul
    calc val * y ≤ val * 256 := Nat.mul_le_mul_left _ (by omega)
      _ = 256 * val := Nat.mul_comm _ _
  have low : ∀ x, x ≤ sat → (val * (255 - sat)) >>> 8 ≤ (val * (255 - x)) >>> 8 := by
    intro x hx
    rw [Nat.shiftRight_eq_div_pow, Nat.shiftRight_eq_div_pow]
    exact Nat.div_le_div_right (Nat.mul_le_mul_left _ (by omega))
  have part : ∀ y, y ≤ 256 → (sat * y) >>> 8 ≤ sat := by
    intro y hy
    rw [Nat.shiftRight_eq_div_pow, h256]
    apply Nat.div_le_of_le_mul
    calc sat * y ≤ sat * 256 := Nat.mul_le_mul_left _ hy
      _ = 256 * sat := Nat.mul_comm _ _
  have hrem : hsvRem hue ≤ 252 := by
    unfold hsvRem hsvSector
    omega
  unfold hsvP hsvQ hsvT
  exact ⟨low _ (part _ (by omega)), up _ (by omega), low _ (part _ (by omega)),
    up _ (by omega), up _ (by omega)⟩

/-! ## Lemmas on calls that do not return -/

theorem show_failed_start (c : Config) (start : Nat → HAL_StatusTypeDef) (fuel : Nat)
    (s : Engine) (h0 : s.BUF_COUNTER = 0) (hd : s.dmaState = HAL_DMA_STATE_READY)
    (hfail : s.chState ≠ HAL_TIM_CHANNEL_STATE_READY ∨ start s.dmaStarts ≠ HAL_OK) :
    ARGB_Show c start fuel s = none := by
  rw [show_admitted c start fuel s h0 hd, if_neg]
  rintro ⟨_, h1, h2⟩
  rcases hfail with h | h
  · exact h h1
  · exact h h2

theorem fillRGBLoop_spins (c : Config) (r g b : Nat) (h : 65536 ≤ c.NUM_PIXELS) :
    ∀ (fuel i : Nat) (s : Engine), i < 65536 → fillRGBLoop c r g b fuel i s = none := by
  intro fuel
  induction fuel with
  | zero => intro i s _; rfl
  | succ n ih =>
    intro i s hi
    unfold fillRGBLoop
    rw [if_pos (by omega)]
    exact ih _ _ (Nat.mod_lt _ (by norm_num))

theorem fillRGB_spins (c : Config) (fuel : Nat) (s : Engine) (r g b : Nat)
    (h : 65536 ≤ c.NUM_PIXELS) : ARGB_FillRGB c fuel s r g b = none := by
  unfold ARGB_FillRGB
  rw [fillRGBLoop_spins c r g b h fuel 0 s (by norm_num)]

theorem mem_showReadIdx (c : Config) (j : Nat) : j ∈ showReadIdx c ↔ j < 2 * c.channels := by
  unfold showReadIdx Config.channels
  by_cases hf : c.family = SK6812
  · simp only [hf, if_true]
    simp
    omega
  · simp only [hf, if_false]
    simp
    omega

theorem mem_callbackReadIdx (c : Config) (ctr j : Nat) :
    j ∈ callbackReadIdx c ctr ↔ c.channels * ctr ≤ j ∧ j < c.channels * ctr + c.channels := by
  unfold callbackReadIdx Config.channels
  by_cases hf : c.family = SK6812
  · simp only [hf, if_true]
    simp
    omega
  · simp only [hf, if_false]
    simp
    omega

theorem mem_showWriteIdx (c : Config) (j : Nat) :
    j ∈ (List.range 8).flatMap (showWriteIdx c) ↔ j < PWM_BUF_LEN c := by
  rw [List.mem_flatMap]
  unfold showWriteIdx PWM_BUF_LEN
  by_cases hf : c.family = SK6812
  · simp only [hf, if_true, List.mem_range]
    constructor
    · rintro ⟨i, hi, h⟩
      simp at h
      omega
    · intro h
      refine ⟨j % 8, by omega, ?_⟩
      simp
      omega
  · simp only [hf, if_false, List.mem_range]
    constructor
    · rintro ⟨i, hi, h⟩
      simp at h
      omega
    · intro h
      refine ⟨j % 8, by omega, ?_⟩
      simp
      omega

theorem mem_halfWriteIdx (c : Config) (j : Nat) :
    j ∈ (List.range 8).flatMap (halfWriteIdx c) ↔ j < PWM_BUF_LEN c / 2 := by
  rw [List.mem_flatMap]
  unfold halfWriteIdx PWM_BUF_LEN
  by_cases hf : c.family = SK6812
  · simp only [hf, if_true, List.mem_range]
    constructor
    · rintro ⟨i, hi, h⟩
      simp at h
      omega
    · intro h
      refine ⟨j % 8, by omega, ?_⟩
      simp
      omega
  · simp only [hf, if_false, List.mem_range]
    constructor
    · rintro ⟨i, hi, h⟩
      simp at h
      omega
    · intro h
      refine ⟨j % 8, by omega, ?_⟩
      simp
      omega

theorem mem_fullWriteIdx (c : Config) (j : Nat) :
    j ∈ (List.range 8).flatMap (fullWriteIdx c) ↔ PWM_BUF_LEN c / 2 ≤ j ∧ j < PWM_BUF_LEN c := by
  rw [List.mem_flatMap]
  unfold fullWriteIdx PWM_BUF_LEN
  by_cases hf : c.family = SK6812
  · simp only [hf, if_true, List.mem_range]
    constructor
    · rintro ⟨i, hi, h⟩
      simp at h
      omega
    · intro h
      refine ⟨j % 8, by omega, ?_⟩
      simp
      omega
  · simp only [hf, if_false, List.mem_range]
    constructor
    · rintro ⟨i, hi, h⟩
      simp at h
      omega
    · intro h
      refine ⟨j % 8, by omega, ?_⟩
      simp
      omega

theorem showFill_reads (c : Config) (rgb1 rgb2 : Nat → Nat) (hi lo : Nat) (pwm : Nat → Nat)
    (h : ∀ j ∈ showReadIdx c, rgb1 j = rgb2 j) :
    showFill c rgb1 hi lo pwm = showFill c rgb2 hi lo pwm := by
  funext j
  rw [showFill_apply, showFill_apply]
  by_cases hj : j < PWM_BUF_LEN c
  · rw [if_pos hj, if_pos hj, h (j / 8)]
    rw [mem_showReadIdx]
    rw [buf_len] at hj
    omega
  · rw [if_neg hj, if_neg hj]

theorem halfFill_reads (c : Config) (rgb1 rgb2 : Nat → Nat) (ctr hi lo : Nat) (pwm : Nat → Nat)
    (h : ∀ j ∈ callbackReadIdx c ctr, rgb1 j = rgb2 j) :
    halfFill c rgb1 ctr hi lo pwm = halfFill c rgb2 ctr hi lo pwm := by
  funext j
  rw [halfFill_apply, halfFill_apply]
  by_cases hj : j < PWM_BUF_LEN c / 2
  · rw [if_pos hj, if_pos hj, h (c.channels * ctr + j / 8)]
    rw [mem_callbackReadIdx]
    rw [half_len] at hj
    omega
  · rw [if_neg hj, if_neg hj]

theorem fullFill_reads (c : Config) (rgb1 rgb2 : Nat → Nat) (ctr hi lo : Nat) (pwm : Nat → Nat)
    (h : ∀ j ∈ callbackReadIdx c ctr, rgb1 j = rgb2 j) :
    fullFill c rgb1 ctr hi lo pwm = fullFill c rgb2 ctr hi lo pwm := by
  funext j
  rw [fullFill_apply, fullFill_apply]
  by_cases hj : PWM_BUF_LEN c / 2 ≤ j ∧ j < PWM_BUF_LEN c
  · rw [if_pos hj, if_pos hj, h (c.channels * ctr + (j - PWM_BUF_LEN c / 2) / 8)]
    rw [mem_callbackReadIdx]
    have h1 := half_len c
    have h2 := buf_len c
    omega
  · rw [if_neg hj, if_neg hj]

/-! ## Lemmas on the brightness divisor -/

theorem divisor_pos (br : Nat) (h : br ≤ 255) : 1 ≤ brightnessDivisor br := by
  unfold brightnessDivisor
  rw [Nat.mod_eq_of_lt (by omega)]
  exact (Nat.one_le_div_iff (by omega)).2 (by omega)

theorem divisor_plateau (br : Nat) (h1 : 128 ≤ br) (h2 : br ≤ 255) :
    brightnessDivisor br = 1 := by
  unfold brightnessDivisor
  rw [Nat.mod_eq_of_lt (by omega)]
  have h3 : 256 / (br + 1) < 2 := (Nat.div_lt_iff_lt_mul (by omega)).2 (by omega)
  have h4 : 1 ≤ 256 / (br + 1) := (Nat.one_le_div_iff (by omega)).2 (by omega)
  omega

theorem divisor_antitone (br1 br2 : Nat) (h : br1 ≤ br2) (h2 : br2 ≤ 255) :
    brightnessDivisor br2 ≤ brightnessDivisor br1 := by
  unfold brightnessDivisor
  rw [Nat.mod_eq_of_lt (by omega), Nat.mod_eq_of_lt (by omega)]
  exact Nat.div_le_div_left (by omega) (by omega)

theorem scaled_eq (br v : Nat) (hv : v < 256) :
    brightnessScaled br v = v / brightnessDivisor br := by
  unfold brightnessScaled
  exact Nat.mod_eq_of_lt (Nat.lt_of_le_of_lt (Nat.div_le_self _ _) hv)

theorem scaled_mono (br1 br2 v : Nat) (h : br1 ≤ br2) (h2 : br2 ≤ 255) (hv : v < 256) :
    brightnessScaled br1 v ≤ brightnessScaled br2 v := by
  rw [scaled_eq br1 v hv, scaled_eq br2 v hv]
  exact Nat.div_le_div_left (divisor_antitone br1 br2 h h2) (divisor_pos br2 h2)

theorem scale8_mono (x y k : Nat) (hxy : x ≤ y) (hy : y < 256) (hk : k ≤ 256) :
    scale8 x k ≤ scale8 y k := by
  rw [scale8_small x k (by omega) hk, scale8_small y k hy hk, Nat.shiftRight_eq_div_pow,
    Nat.shiftRight_eq_div_pow]
  exact Nat.div_le_div_right (Nat.mul_le_mul_right k hxy)

theorem storedByte_scaled (c : Config) (br r g b j : Nat) :
    storedByte c br r g b j =
      if j % c.channels = 0 then
        (if c.family = SK6812 ∨ c.family = WS2811F ∨ c.family = WS2811S
          then brightnessScaled br r
          else (if c.USE_GAMMA_CORRECTION then scale8 (brightnessScaled br g) 0xB0
            else brightnessScaled br g))
      else if j % c.channels = 1 then
        (if c.family = SK6812 ∨ c.family = WS2811F ∨ c.family = WS2811S
          then (if c.USE_GAMMA_CORRECTION then scale8 (brightnessScaled br g) 0xB0
            else brightnessScaled br g)
          else brightnessScaled br r)
      else
        (if c.USE_GAMMA_CORRECTION then scale8 (brightnessScaled br b) 0xF0
          else brightnessScaled br b) := rfl

theorem storedByte_mono (c : Config) (br1 br2 r g b j : Nat) (h : br1 ≤ br2) (h2 : br2 ≤ 255)
    (hr : r < 256) (hg : g < 256) (hb : b < 256) :
    storedByte c br1 r g b j ≤ storedByte c br2 r g b j := by
  have hlt : ∀ v, brightnessScaled br2 v < 256 := fun v => Nat.mod_lt _ (by norm_num)
  have mr := scaled_mono br1 br2 r h h2 hr
  have mg := scaled_mono br1 br2 g h h2 hg
  have mb := scaled_mono br1 br2 b h h2 hb
  have sg := scale8_mono _ _ 0xB0 mg (hlt g) (by norm_num)
  have sb := scale8_mono _ _ 0xF0 mb (hlt b) (by norm_num)
  rw [storedByte_scaled, storedByte_scaled]
  split_ifs <;> assumption

theorem storedByte_plateau (c : Config) (br r g b j : Nat) (h1 : 128 ≤ br) (h2 : br ≤ 255) :
    storedByte c br r g b j = storedByte c 255 r g b j := by
  have e : ∀ v, brightnessScaled br v = brightnessScaled 255 v := by
    intro v
    unfold brightnessScaled
    rw [divisor_plateau br h1 h2, divisor_plateau 255 (by norm_num) (by norm_num)]
  rw [storedByte_scaled, storedByte_scaled, e r, e g, e b]

/-! ## The claims -/

/-- C1 (as amended): after a successful `ARGB_Show` on a strip of `2 ≤ NUM_PIXELS ≤ 65536`
pixels, the half the Transfer Engine emits in step `k < NUM_PIXELS` is the most significant
bit first encoding of the channel bytes of pixel `k` of the colour buffer: the first
`NUM_PIXELS` halves on the wire are pixels 0, 1, ... in order. -/
theorem C1_wire_order (c : Config) (start : Nat → HAL_StatusTypeDef) (fuel : Nat)
    (s0 s1 : Engine) (hlo : 2 ≤ c.NUM_PIXELS) (hhi : c.NUM_PIXELS ≤ 65536)
    (hshow : ARGB_Show c start fuel s0 = some (ARGB_OK, s1))
    (k : Nat) (hk : k < c.NUM_PIXELS) (n : Nat) (hn : k < n) :
    (transfer c n 0 s1)[k]? = some (encodePixel c s0.RGB_BUF s0.PWM_HI s0.PWM_LO k) := by
  obtain ⟨_, _, _, _, rfl⟩ := show_ok_inv c start fuel s0 s1 hshow
  have hrun : ∀ i, i ≤ k → (runFrom c 0 i (seeded c s0)).dmaRequest = true := by
    intro i hi
    rw [runFrom_zero_eq]
    by_cases hi2 : i + 2 ≤ c.NUM_PIXELS
    · exact (run_pixels c s0 i (Or.inl hi2)).2.1
    · exact (run_last_pixel c s0 i (by omega) hlo).1
  rw [transfer_get c n 0 (seeded c s0) k hn hrun, runFrom_zero_eq, Nat.zero_add]
  have hmod : k % 65536 = k := Nat.mod_eq_of_lt (by omega)
  by_cases hk2 : k + 2 ≤ c.NUM_PIXELS
  · rw [(run_pixels c s0 k (Or.inl hk2)).2.2.2.2.2.1, hmod]
  · rw [(run_last_pixel c s0 k (by omega) hlo).2, hmod]

/-- C1 on the scenario of the specification: the half emitted in step 2 is pixel 2. -/
theorem C1_wire_order_witness :
    (transfer scenarioCfg 3 0 (seeded scenarioCfg scenarioEngine))[2]? =
      some (encodePixel scenarioCfg scenarioEngine.RGB_BUF
        scenarioEngine.PWM_HI scenarioEngine.PWM_LO 2) :=
  C1_wire_order scenarioCfg startOk 1 scenarioEngine (seeded scenarioCfg scenarioEngine)
    (by decide) (by decide)
    (by rw [show_admitted scenarioCfg startOk 1 scenarioEngine rfl rfl]; rfl)
    2 (by decide) 3 (by decide)

/-- C1, the claim as stated fails for a strip of 65537 pixels: the 16-bit cursor wraps to 0,
and the half emitted in step 65536 carries pixel 0 again instead of pixel 65536. -/
theorem C1_wire_order_fails_beyond_16_bits :
    ARGB_Show wideCfg startOk 1 wideEngine = some (ARGB_OK, seeded wideCfg wideEngine) ∧
    (transfer wideCfg 65537 0 (seeded wideCfg wideEngine))[65536]? =
      some (encodePixel wideCfg wideEngine.RGB_BUF wideEngine.PWM_HI wideEngine.PWM_LO 0) ∧
    encodePixel wideCfg wideEngine.RGB_BUF wideEngine.PWM_HI wideEngine.PWM_LO 0 ≠
      encodePixel wideCfg wideEngine.RGB_BUF wideEngine.PWM_HI wideEngine.PWM_LO 65536 := by
  refine ⟨?_, ?_, ?_⟩
  · rw [show_admitted wideCfg startOk 1 wideEngine rfl rfl]
    rfl
  · have hw : (65536 : Nat) ≤ wideCfg.NUM_PIXELS := by decide
    have hrun : ∀ i, i ≤ 65536 →
        (runFrom wideCfg 0 i (seeded wideCfg wideEngine)).dmaRequest = true := by
      intro i _
      rw [runFrom_zero_eq]
      exact (run_pixels wideCfg wideEngine i (Or.inr hw)).2.1
    rw [transfer_get wideCfg 65537 0 (seeded wideCfg wideEngine) 65536 (by norm_num) hrun,
      runFrom_zero_eq, Nat.zero_add,
      (run_pixels wideCfg wideEngine 65536 (Or.inr hw)).2.2.2.2.2.1]
  · decide

/-- C2 (as amended): after a successful `ARGB_Show` on a strip of an even number
`NUM_PIXELS ≥ 2` of pixels, with `NUM_PIXELS + 2` a 16-bit value, the Transfer Engine emits
exactly `NUM_PIXELS + 2` halves and is then stopped (a larger `n` emits no more): half
`k < NUM_PIXELS` carries pixel `k`, and the two halves after the one of pixel
`NUM_PIXELS - 1` consist of zero duty codes only. -/
theorem C2_reset_tail (c : Config) (start : Nat → HAL_StatusTypeDef) (fuel : Nat)
    (s0 s1 : Engine) (h2 : 2 ≤ c.NUM_PIXELS) (hev : c.NUM_PIXELS % 2 = 0)
    (h16 : c.NUM_PIXELS + 2 < 65536)
    (hshow : ARGB_Show c start fuel s0 = some (ARGB_OK, s1))
    (n : Nat) (hn : c.NUM_PIXELS + 2 < n) :
    transfer c n 0 s1 =
      (List.range (c.NUM_PIXELS + 2)).map fun k =>
        if k < c.NUM_PIXELS then encodePixel c s0.RGB_BUF s0.PWM_HI s0.PWM_LO k
        else zeroHalf c := by
  obtain ⟨_, _, _, _, rfl⟩ := show_ok_inv c start fuel s0 s1 hshow
  obtain ⟨hcN, hrN, _, _, _, _, hlastN⟩ := run_tail c s0 h2 h16 c.NUM_PIXELS (Nat.le_refl _)
  -- the half-complete callback of step `NUM_PIXELS` finds the cursor at `NUM_PIXELS + 2`
  have hnoop : runCallbacks c (c.NUM_PIXELS + 1) (seeded c s0) =
      runCallbacks c c.NUM_PIXELS (seeded c s0) :=
    callback_noop c c.NUM_PIXELS _ hev (by omega)
  -- the complete callback of step `NUM_PIXELS + 1` stops the transfer
  have hstop : (runFrom c 0 (c.NUM_PIXELS + 2) (seeded c s0)).dmaRequest = false := by
    rw [runFrom_zero_eq]
    show (callback c (c.NUM_PIXELS + 1)
      (runCallbacks c (c.NUM_PIXELS + 1) (seeded c s0))).dmaRequest = false
    rw [hnoop]
    exact (callback_terminates c (c.NUM_PIXELS + 1) _ (by omega) (by omega)).1
  have hrun : ∀ i, i < c.NUM_PIXELS + 2 →
      (runFrom c 0 i (seeded c s0)).dmaRequest = true := by
    intro i hi
    rw [runFrom_zero_eq]
    by_cases hin : i ≤ c.NUM_PIXELS
    · exact (run_tail c s0 h2 h16 i hin).2.1
    · have e : i = c.NUM_PIXELS + 1 := by omega
      rw [e, hnoop]
      exact hrN
  rw [transfer_eq_map c (c.NUM_PIXELS + 2) n 0 (seeded c s0) hn hrun hstop]
  apply List.map_congr_left
  intro j hj
  rw [List.mem_range] at hj
  rw [runFrom_zero_eq, Nat.zero_add]
  by_cases hjn : j ≤ c.NUM_PIXELS
  · exact (run_tail c s0 h2 h16 j hjn).2.2.2.2.2.1
  · have e : j = c.NUM_PIXELS + 1 := by omega
    rw [e, hnoop, hlastN]

set_option maxRecDepth 100000 in
/-- C2 on a strip of 4 pixels: the four pixels are followed by two zero halves. -/
theorem C2_reset_tail_witness :
    transfer evenCfg 100 0 (seeded evenCfg evenEngine) =
      [encodePixel evenCfg evenEngine.RGB_BUF 42 17 0,
       encodePixel evenCfg evenEngine.RGB_BUF 42 17 1,
       encodePixel evenCfg evenEngine.RGB_BUF 42 17 2,
       encodePixel evenCfg evenEngine.RGB_BUF 42 17 3,
       zeroHalf evenCfg, zeroHalf evenCfg] := by
  rw [C2_reset_tail evenCfg startOk 1 evenEngine (seeded evenCfg evenEngine)
    (by decide) (by decide) (by decide)
    (by rw [show_admitted evenCfg startOk 1 evenEngine rfl rfl]; rfl) 100 (by decide)]
  decide

set_option maxRecDepth 100000 in
/-- C2, the claim as stated fails on the scenario of the specification (3 pixels):
`ARGB_Show` succeeds, the wire carries the three pixels and then one zero half only, and the
transfer is stopped (4 halves are emitted out of 100 allowed).  It also fails on a strip of
65534 pixels, where the 16-bit cursor wraps before it reaches `NUM_PIXELS + 2`: the transfer
is not stopped after `65534 + 2` halves, a further half is emitted in step 65536. -/
theorem C2_reset_tail_not_two_halves :
    ARGB_Show scenarioCfg startOk 1 scenarioEngine =
      some (ARGB_OK, seeded scenarioCfg scenarioEngine) ∧
    transfer scenarioCfg 100 0 (seeded scenarioCfg scenarioEngine) =
      [encodePixel scenarioCfg scenarioEngine.RGB_BUF 42 17 0,
       encodePixel scenarioCfg scenarioEngine.RGB_BUF 42 17 1,
       encodePixel scenarioCfg scenarioEngine.RGB_BUF 42 17 2,
       zeroHalf scenarioCfg] ∧
    ARGB_Show longCfg startOk 1 idleEngine = some (ARGB_OK, seeded longCfg idleEngine) ∧
    ((transfer longCfg 65537 0 (seeded longCfg idleEngine))[65536]?).isSome = true := by
  refine ⟨?_, by decide, ?_, ?_⟩
  · rw [show_admitted scenarioCfg startOk 1 scenarioEngine rfl rfl]
    rfl
  · rw [show_admitted longCfg startOk 1 idleEngine rfl rfl]
    rfl
  · have hrun : ∀ i, i ≤ 65536 →
        (runFrom longCfg 0 i (seeded longCfg idleEngine)).dmaRequest = true := by
      intro i _
      rw [runFrom_zero_eq]
      exact (run_never_ready longCfg idleEngine (by decide) i).2.2
    rw [transfer_get longCfg 65537 0 (seeded longCfg idleEngine) 65536 (by norm_num) hrun]
    rfl

/-- C3: `ARGB_Show`, called with the cursor at 0, the DMA handle ready, the timer channel
ready and a start call that succeeds, returns `ARGB_OK` (one pass of its start loop is
enough) and leaves the state BUSY, the cursor at 2, the first half of `PWM_BUF` holding the
encoding of pixel 0, the second half that of pixel 1, and `RGB_BUF` as it was. -/
theorem C3_seeding (c : Config) (start : Nat → HAL_StatusTypeDef) (fuel : Nat) (s0 : Engine)
    (h0 : s0.BUF_COUNTER = 0) (hd : s0.dmaState = HAL_DMA_STATE_READY)
    (hc : s0.chState = HAL_TIM_CHANNEL_STATE_READY) (hs : start s0.dmaStarts = HAL_OK) :
    ∃ s1, ARGB_Show c start (fuel + 1) s0 = some (ARGB_OK, s1) ∧
      ARGB_Ready s1 = ARGB_BUSY ∧ s1.BUF_COUNTER = 2 ∧
      firstHalf c s1.PWM_BUF = encodePixel c s0.RGB_BUF s0.PWM_HI s0.PWM_LO 0 ∧
      secondHalf c s1.PWM_BUF = encodePixel c s0.RGB_BUF s0.PWM_HI s0.PWM_LO 1 ∧
      s1.RGB_BUF = s0.RGB_BUF := by
  refine ⟨seeded c s0, ?_, rfl, rfl, ?_, ?_, rfl⟩
  · rw [show_admitted c start (fuel + 1) s0 h0 hd, if_pos ⟨Nat.succ_ne_zero _, hc, hs⟩]
  · exact firstHalf_showFill ..
  · exact secondHalf_showFill ..

/-- C3 on the scenario of the specification (3 pixels, RGB order, pixel 0 stored as
(255, 0, 0)): the first half after seeding is 8 HIGH codes followed by 16 LOW codes. -/
theorem C3_seeding_witness :
    ∃ s1, ARGB_Show scenarioCfg startOk 1 scenarioEngine = some (ARGB_OK, s1) ∧
      ARGB_Ready s1 = ARGB_BUSY ∧ s1.BUF_COUNTER = 2 ∧
      firstHalf scenarioCfg s1.PWM_BUF = List.replicate 8 42 ++ List.replicate 16 17 := by
  obtain ⟨s1, h1, h2, h3, h4, _, _⟩ :=
    C3_seeding scenarioCfg startOk 0 scenarioEngine rfl rfl rfl rfl
  refine ⟨s1, h1, h2, h3, ?_⟩
  rw [h4]
  decide

/-- C4: the `i`-th duty code (`i < 8`) that `ARGB_Show` and both callbacks write for a byte
`b` of `RGB_BUF` is `PWM_HI` if bit `7 - i` of `b` is set and `PWM_LO` otherwise, most
significant bit first; `b << i` is not truncated before the test with `0x80`, and `b` may be
any value.  `m` is the position of the byte among the bytes being encoded: `ARGB_Show`
encodes bytes `0 .. 2 * channels - 1` from position 0 of `PWM_BUF`, the half-complete
callback the bytes of pixel `BUF_COUNTER` from position 0, the complete callback the same
bytes from position `PWM_BUF_LEN / 2`. -/
theorem C4_bit_encoder (c : Config) (start : Nat → HAL_StatusTypeDef) (fuel : Nat)
    (s s1 : Engine) (m i : Nat) (h8 : i < 8) :
    (ARGB_Show c start fuel s = some (ARGB_OK, s1) → m < 2 * c.channels →
      s1.PWM_BUF (8 * m + i) =
        if (s.RGB_BUF m).testBit (7 - i) then s.PWM_HI else s.PWM_LO) ∧
    (s.BUF_COUNTER < c.NUM_PIXELS → m < c.channels →
      (HAL_TIM_PWM_PulseFinishedHalfCpltCallback c true s).PWM_BUF (8 * m + i) =
        if (s.RGB_BUF (c.channels * s.BUF_COUNTER + m)).testBit (7 - i)
          then s.PWM_HI else s.PWM_LO) ∧
    (s.BUF_COUNTER < c.NUM_PIXELS → m < c.channels →
      (HAL_TIM_PWM_PulseFinishedCallback c true s).PWM_BUF (PWM_BUF_LEN c / 2 + 8 * m + i) =
        if (s.RGB_BUF (c.channels * s.BUF_COUNTER + m)).testBit (7 - i)
          then s.PWM_HI else s.PWM_LO) := by
  have hl := buf_len c
  have hh := half_len c
  have e1 : (8 * m + i) / 8 = m := by omega
  have e2 : (8 * m + i) % 8 = i := by omega
  have e3 : (PWM_BUF_LEN c / 2 + 8 * m + i - PWM_BUF_LEN c / 2) / 8 = m := by omega
  have e4 : (PWM_BUF_LEN c / 2 + 8 * m + i) % 8 = i := by omega
  refine ⟨?_, ?_, ?_⟩
  · intro hshow hm
    obtain ⟨_, _, _, _, rfl⟩ := show_ok_inv c start fuel s s1 hshow
    show showFill c s.RGB_BUF s.PWM_HI s.PWM_LO s.PWM_BUF (8 * m + i) = _
    rw [showFill_apply, if_pos (by omega), e1, e2, code_eq_msbCode _ _ _ _ (by omega)]
    rfl
  · intro hctr hm
    have e : (HAL_TIM_PWM_PulseFinishedHalfCpltCallback c true s).PWM_BUF =
        halfFill c s.RGB_BUF s.BUF_COUNTER s.PWM_HI s.PWM_LO s.PWM_BUF := by
      simp [HAL_TIM_PWM_PulseFinishedHalfCpltCallback, hctr]
    rw [e, halfFill_apply, if_pos (by omega), e1, e2, code_eq_msbCode _ _ _ _ (by omega)]
    rfl
  · intro hctr hm
    have e : (HAL_TIM_PWM_PulseFinishedCallback c true s).PWM_BUF =
        fullFill c s.RGB_BUF s.BUF_COUNTER s.PWM_HI s.PWM_LO s.PWM_BUF := by
      simp [HAL_TIM_PWM_PulseFinishedCallback, hctr]
    rw [e, fullFill_apply, if_pos (by omega), e3, e4, code_eq_msbCode _ _ _ _ (by omega)]
    rfl

set_option maxRecDepth 100000 in
/-- C4 on the scenario of the specification: byte 4 of `RGB_BUF` is 255 (green of pixel 1),
so its code number 2 is HIGH after `ARGB_Show`; with the cursor at 2 the callbacks encode
pixel 2, whose byte 1 is 0 (code LOW) and whose byte 2 is 255 (code HIGH). -/
theorem C4_bit_encoder_witness :
    (seeded scenarioCfg scenarioEngine).PWM_BUF (8 * 4 + 2) = 42 ∧
    (HAL_TIM_PWM_PulseFinishedHalfCpltCallback scenarioCfg true
      (seeded scenarioCfg scenarioEngine)).PWM_BUF (8 * 1 + 3) = 17 ∧
    (HAL_TIM_PWM_PulseFinishedCallback scenarioCfg true
      (seeded scenarioCfg scenarioEngine)).PWM_BUF (PWM_BUF_LEN scenarioCfg / 2 + 8 * 2 + 3)
        = 42 := by
  have hshow : ARGB_Show scenarioCfg startOk 1 scenarioEngine =
      some (ARGB_OK, seeded scenarioCfg scenarioEngine) := by
    rw [show_admitted scenarioCfg startOk 1 scenarioEngine rfl rfl]; rfl
  have ha := (C4_bit_encoder scenarioCfg startOk 1 scenarioEngine
    (seeded scenarioCfg scenarioEngine) 4 2 (by decide)).1 hshow (by decide)
  have hb := (C4_bit_encoder scenarioCfg startOk 1 (seeded scenarioCfg scenarioEngine)
    scenarioEngine 1 3 (by decide)).2.1 (by decide) (by decide)
  have hc := (C4_bit_encoder scenarioCfg startOk 1 (seeded scenarioCfg scenarioEngine)
    scenarioEngine 2 3 (by decide)).2.2 (by decide) (by decide)
  refine ⟨?_, ?_, ?_⟩
  · rw [ha]; decide
  · rw [hb]; decide
  · rw [hc]; decide

/-- C5: in every state reached from a successful `ARGB_Show` by `j` alternating callbacks,
none of which was the terminating one (a complete callback entered with the cursor at or
above `NUM_PIXELS + 2`), a further `ARGB_Show` returns `ARGB_BUSY` and leaves the whole
engine as it was: `PWM_BUF`, `BUF_COUNTER` and `RGB_BUF` are untouched and
`HAL_DMA_Start_IT` is not called again. -/
theorem C5_second_trigger_is_busy (c : Config) (start : Nat → HAL_StatusTypeDef) (fuel : Nat)
    (s0 s1 : Engine) (hshow : ARGB_Show c start fuel s0 = some (ARGB_OK, s1)) (j : Nat)
    (hrun : ∀ i, i < j →
      ¬ (i % 2 = 1 ∧ c.NUM_PIXELS + 2 ≤ (runCallbacks c i s1).BUF_COUNTER))
    (start2 : Nat → HAL_StatusTypeDef) (fuel2 : Nat) :
    ARGB_Show c start2 fuel2 (runCallbacks c j s1) = some (ARGB_BUSY, runCallbacks c j s1) := by
  obtain ⟨_, _, _, _, rfl⟩ := show_ok_inv c start fuel s0 s1 hshow
  obtain ⟨h1, h2, _⟩ := run_in_flight c s0 j hrun
  rw [show_refused c start2 fuel2 _ (Or.inr (by rw [h1]; decide)), set_busy_id _ h2]

set_option maxRecDepth 100000 in
/-- C5 on the scenario of the specification, after three callbacks. -/
theorem C5_second_trigger_is_busy_witness :
    ARGB_Show scenarioCfg startOk 5 (runCallbacks scenarioCfg 3 (seeded scenarioCfg scenarioEngine))
      = some (ARGB_BUSY, runCallbacks scenarioCfg 3 (seeded scenarioCfg scenarioEngine)) :=
  C5_second_trigger_is_busy scenarioCfg startOk 1 scenarioEngine
    (seeded scenarioCfg scenarioEngine)
    (by rw [show_admitted scenarioCfg startOk 1 scenarioEngine rfl rfl]; rfl)
    3 (by decide) startOk 5

/-- C6, the code at the failing input: the state is READY, the cursor 0 and the DMA handle
busy; `ARGB_Show` returns `ARGB_BUSY`, starts nothing, and `ARGB_Ready` reports BUSY
afterwards, where the claim says READY. -/
theorem C6_ready_becomes_busy :
    ARGB_Ready stalledEngine = ARGB_READY ∧ stalledEngine.BUF_COUNTER = 0 ∧
    ∃ s1, ARGB_Show scenarioCfg startOk 1 stalledEngine = some (ARGB_BUSY, s1) ∧
      ARGB_Ready s1 = ARGB_BUSY ∧ s1.dmaStarts = stalledEngine.dmaStarts ∧
      s1.dmaRequest = false :=
  ⟨rfl, rfl, { stalledEngine with ARGB_LOC_ST := ARGB_BUSY },
    show_refused scenarioCfg startOk 1 stalledEngine (Or.inr (by decide)), rfl, rfl, rfl⟩

/-- C7, the code at the failing input: on the scenario's engine, admitted (cursor 0, DMA
handle ready, channel ready), with a first call of `HAL_DMA_Start_IT` that fails and later
calls that would succeed, `ARGB_Show` returns nothing, whatever the number of passes of its
start loop: no failure code and no success.  The channel state it has set to BUSY before
the call sends every later pass to the first `continue`. -/
theorem C7_failed_start_hangs :
    startFailsOnce 0 = HAL_ERROR ∧ startFailsOnce 1 = HAL_OK ∧
    scenarioEngine.BUF_COUNTER = 0 ∧ scenarioEngine.dmaState = HAL_DMA_STATE_READY ∧
    scenarioEngine.chState = HAL_TIM_CHANNEL_STATE_READY ∧
    (∀ fuel, ARGB_Show scenarioCfg startFailsOnce fuel scenarioEngine = none) ∧
    showLoop startFailsOnce 1
      { scenarioEngine with chState := HAL_TIM_CHANNEL_STATE_BUSY, dmaStarts := 1 } = none :=
  ⟨rfl, rfl, rfl, rfl, rfl,
    fun fuel => show_failed_start scenarioCfg startFailsOnce fuel scenarioEngine rfl rfl
      (Or.inr (by decide)),
    showLoop_spin_busy startFailsOnce 1 _ (by decide)⟩

/-- C8 (as amended): for an even `NUM_PIXELS` with `NUM_PIXELS + 2` a 16-bit value, after
a successful `ARGB_Show` and callbacks alternating half, full, half, ..., the state returns
to READY on callback number `NUM_PIXELS + 2` and is BUSY after every earlier one. -/
theorem C8_full_cycle_even (c : Config) (start : Nat → HAL_StatusTypeDef) (fuel : Nat)
    (s0 s1 : Engine) (hshow : ARGB_Show c start fuel s0 = some (ARGB_OK, s1))
    (hev : c.NUM_PIXELS % 2 = 0) (h16 : c.NUM_PIXELS + 2 < 65536) :
    (∀ j, j < c.NUM_PIXELS + 2 → ARGB_Ready (runCallbacks c j s1) = ARGB_BUSY) ∧
    ARGB_Ready (runCallbacks c (c.NUM_PIXELS + 2) s1) = ARGB_READY := by
  obtain ⟨_, _, _, _, rfl⟩ := show_ok_inv c start fuel s0 s1 hshow
  obtain ⟨hc, hst⟩ := run_cursor c s0 h16 c.NUM_PIXELS (Nat.le_refl _)
  have hnoop : runCallbacks c (c.NUM_PIXELS + 1) (seeded c s0) =
      runCallbacks c c.NUM_PIXELS (seeded c s0) :=
    callback_noop c c.NUM_PIXELS _ hev (by omega)
  refine ⟨?_, ?_⟩
  · intro j hj
    by_cases hjn : j ≤ c.NUM_PIXELS
    · exact (run_cursor c s0 h16 j hjn).2
    · have e : j = c.NUM_PIXELS + 1 := by omega
      rw [e, hnoop]
      exact hst
  · show (callback c (c.NUM_PIXELS + 1)
      (runCallbacks c (c.NUM_PIXELS + 1) (seeded c s0))).ARGB_LOC_ST = ARGB_READY
    rw [hnoop]
    exact (callback_terminates c (c.NUM_PIXELS + 1) _ (by omega) (by omega)).2.2.1

set_option maxRecDepth 100000 in
/-- C8 on a strip of 4 pixels: READY after the 6th callback, BUSY after the 5th. -/
theorem C8_full_cycle_even_witness :
    ARGB_Ready (runCallbacks evenCfg 5 (seeded evenCfg evenEngine)) = ARGB_BUSY ∧
    ARGB_Ready (runCallbacks evenCfg (4 + 2) (seeded evenCfg evenEngine)) = ARGB_READY := by
  have h := C8_full_cycle_even evenCfg startOk 1 evenEngine (seeded evenCfg evenEngine)
    (by rw [show_admitted evenCfg startOk 1 evenEngine rfl rfl]; rfl) (by decide) (by decide)
  exact ⟨h.1 5 (by decide), h.2⟩

set_option maxRecDepth 100000 in
/-- C8, the claim as stated fails on the scenario of the specification (3 pixels): the
state is BUSY after 3 callbacks and READY after the 4th, an earlier one than the 5th.
It also fails on a strip of 65534 pixels, where the 16-bit cursor wraps before it reaches
`NUM_PIXELS + 2`: the state is still BUSY after callback number 65534 + 2. -/
theorem C8_ready_not_after_n_plus_2 :
    ARGB_Show scenarioCfg startOk 1 scenarioEngine =
      some (ARGB_OK, seeded scenarioCfg scenarioEngine) ∧
    ARGB_Ready (runCallbacks scenarioCfg 3 (seeded scenarioCfg scenarioEngine)) = ARGB_BUSY ∧
    ARGB_Ready (runCallbacks scenarioCfg 4 (seeded scenarioCfg scenarioEngine)) = ARGB_READY ∧
    ARGB_Show longCfg startOk 1 idleEngine = some (ARGB_OK, seeded longCfg idleEngine) ∧
    (runCallbacks longCfg (65534 + 2) (seeded longCfg idleEngine)).ARGB_LOC_ST = ARGB_BUSY := by
  refine ⟨?_, by decide, by decide, ?_, ?_⟩
  · rw [show_admitted scenarioCfg startOk 1 scenarioEngine rfl rfl]
    rfl
  · rw [show_admitted longCfg startOk 1 idleEngine rfl rfl]
    rfl
  · exact (run_never_ready longCfg idleEngine (by decide) (65534 + 2)).2.1

/-- C9: for a 16-bit index `i`, brightness and channel values in 0..255, `ARGB_SetRGB`
returns `ARGB_OK` and stores, for pixel `i % NUM_PIXELS`, the values `R = r / d`,
`G = (g / d * 0xB0) >> 8`, `B = (b / d * 0xF0) >> 8` with `d = 256 / (br + 1)` when gamma
correction is on (`G = g / d`, `B = b / d` when off), in the order G, R, B for WS2812 and
R, G, B for the other families; every other byte of the colour buffer keeps its value. -/
theorem C9_setPixelRGB_storage (c : Config) (s : Engine) (i r g b : Nat) (hi : i < 65536)
    (hbr : s.ARGB_BR < 256) (hr : r < 256) (hg : g < 256) (hb : b < 256) :
    (ARGB_SetRGB c s i r g b).1 = ARGB_OK ∧
    (ARGB_SetRGB c s i r g b).2.RGB_BUF (c.channels * (i % c.NUM_PIXELS)) =
      (if c.family = WS2812 then
        (if c.USE_GAMMA_CORRECTION then (g / (256 / (s.ARGB_BR + 1)) * 0xB0) >>> 8
          else g / (256 / (s.ARGB_BR + 1)))
        else r / (256 / (s.ARGB_BR + 1))) ∧
    (ARGB_SetRGB c s i r g b).2.RGB_BUF (c.channels * (i % c.NUM_PIXELS) + 1) =
      (if c.family = WS2812 then r / (256 / (s.ARGB_BR + 1))
        else (if c.USE_GAMMA_CORRECTION then (g / (256 / (s.ARGB_BR + 1)) * 0xB0) >>> 8
          else g / (256 / (s.ARGB_BR + 1)))) ∧
    (ARGB_SetRGB c s i r g b).2.RGB_BUF (c.channels * (i % c.NUM_PIXELS) + 2) =
      (if c.USE_GAMMA_CORRECTION then (b / (256 / (s.ARGB_BR + 1)) * 0xF0) >>> 8
        else b / (256 / (s.ARGB_BR + 1))) ∧
    (∀ j, j ≠ c.channels * (i % c.NUM_PIXELS) → j ≠ c.channels * (i % c.NUM_PIXELS) + 1 →
      j ≠ c.channels * (i % c.NUM_PIXELS) + 2 →
      (ARGB_SetRGB c s i r g b).2.RGB_BUF j = s.RGB_BUF j) := by
  have hbr' : s.ARGB_BR % 65536 = s.ARGB_BR := Nat.mod_eq_of_lt (by omega)
  have hdiv : ∀ x, x < 256 → (x / (256 / (s.ARGB_BR + 1))) % 256 = x / (256 / (s.ARGB_BR + 1)) :=
    fun x hx => Nat.mod_eq_of_lt (Nat.lt_of_le_of_lt (Nat.div_le_self _ _) hx)
  have hlt : ∀ x, x < 256 → x / (256 / (s.ARGB_BR + 1)) < 256 :=
    fun x hx => Nat.lt_of_le_of_lt (Nat.div_le_self _ _) hx
  have hfam : (c.family = SK6812 ∨ c.family = WS2811F ∨ c.family = WS2811S) ↔
      ¬ c.family = WS2812 := by
    cases c.family <;> simp
  refine ⟨rfl, ?_, ?_, ?_, ?_⟩
  · rw [setRGB_buf c s i r g b hi, if_pos rfl, hbr', hdiv r hr, hdiv g hg,
      scale8_small _ _ (hlt g hg) (by norm_num)]
    by_cases hw : c.family = WS2812
    · rw [if_neg (by rw [hfam]; exact not_not.2 hw), if_pos hw]
    · rw [if_pos (by rw [hfam]; exact hw), if_neg hw]
  · rw [setRGB_buf c s i r g b hi, if_neg (by omega), if_pos rfl, hbr', hdiv r hr, hdiv g hg,
      scale8_small _ _ (hlt g hg) (by norm_num)]
    by_cases hw : c.family = WS2812
    · rw [if_neg (by rw [hfam]; exact not_not.2 hw), if_pos hw]
    · rw [if_pos (by rw [hfam]; exact hw), if_neg hw]
  · rw [setRGB_buf c s i r g b hi, if_neg (by omega), if_neg (by omega), if_pos rfl, hbr',
      hdiv b hb, scale8_small _ _ (hlt b hb) (by norm_num)]
  · intro j h1 h2 h3
    rw [setRGB_buf c s i r g b hi, if_neg h1, if_neg h2, if_neg h3]

/-- C9 at brightness 255 with gamma correction on (WS2812, pixel 1 of 3, colour
(200, 100, 50)): `r_out = r_in`, `g_out = (g_in * 0xB0) >> 8`, `b_out = (b_in * 0xF0) >> 8`,
stored in the order G, R, B. -/
theorem C9_setPixelRGB_storage_witness :
    (ARGB_SetRGB { family := WS2812, NUM_PIXELS := 3, USE_GAMMA_CORRECTION := true, RGB := true }
        idleEngine 4 200 100 50).1 = ARGB_OK ∧
      (ARGB_SetRGB { family := WS2812, NUM_PIXELS := 3, USE_GAMMA_CORRECTION := true, RGB := true }
        idleEngine 4 200 100 50).2.RGB_BUF 3 = (100 * 0xB0) >>> 8 ∧
      (ARGB_SetRGB { family := WS2812, NUM_PIXELS := 3, USE_GAMMA_CORRECTION := true, RGB := true }
        idleEngine 4 200 100 50).2.RGB_BUF 4 = 200 ∧
      (ARGB_SetRGB { family := WS2812, NUM_PIXELS := 3, USE_GAMMA_CORRECTION := true, RGB := true }
        idleEngine 4 200 100 50).2.RGB_BUF 5 = (50 * 0xF0) >>> 8 := by
  have h := C9_setPixelRGB_storage
    { family := WS2812, NUM_PIXELS := 3, USE_GAMMA_CORRECTION := true, RGB := true }
    idleEngine 4 200 100 50 (by decide) (by decide) (by decide) (by decide) (by decide)
  exact ⟨h.1, h.2.1, h.2.2.1, h.2.2.2.1⟩

/-- C10: with `1 ≤ NUM_PIXELS`, `k < NUM_PIXELS` and `NUM_PIXELS + k` a 16-bit value,
`ARGB_SetRGB (NUM_PIXELS + k)` leaves the same engine as `ARGB_SetRGB k`; every 16-bit index
`i` acts as `i % NUM_PIXELS`, and no byte at or beyond `NUM_BYTES` is written. -/
theorem C10_setPixelRGB_wraparound (c : Config) (s : Engine) (k r g b : Nat)
    (hN : 1 ≤ c.NUM_PIXELS) (hk : k < c.NUM_PIXELS) (h16 : c.NUM_PIXELS + k < 65536) :
    ARGB_SetRGB c s (c.NUM_PIXELS + k) r g b = ARGB_SetRGB c s k r g b ∧
    (∀ i, i < 65536 →
      ARGB_SetRGB c s i r g b = ARGB_SetRGB c s (i % c.NUM_PIXELS) r g b ∧
      ∀ j, NUM_BYTES c ≤ j → (ARGB_SetRGB c s i r g b).2.RGB_BUF j = s.RGB_BUF j) := by
  refine ⟨?_, ?_⟩
  · rw [setRGB_wrap c s (c.NUM_PIXELS + k) r g b h16, Nat.add_mod_left, Nat.mod_eq_of_lt hk]
  · intro i hi
    refine ⟨setRGB_wrap c s i r g b hi, ?_⟩
    intro j hj
    have hm : i % c.NUM_PIXELS < c.NUM_PIXELS := Nat.mod_lt _ (by omega)
    have hb : c.channels * (i % c.NUM_PIXELS) + c.channels ≤ NUM_BYTES c := by
      have e : NUM_BYTES c = c.channels * c.NUM_PIXELS := by
        unfold NUM_BYTES Config.channels
        split <;> rfl
      rw [e]
      calc c.channels * (i % c.NUM_PIXELS) + c.channels
          = c.channels * (i % c.NUM_PIXELS + 1) := by ring
        _ ≤ c.channels * c.NUM_PIXELS := Nat.mul_le_mul_left _ hm
    have hch : 3 ≤ c.channels := by
      unfold Config.channels
      split <;> omega
    rw [setRGB_buf c s i r g b hi, if_neg (by omega), if_neg (by omega), if_neg (by omega)]

/-- C10 on a strip of 3 pixels: index 3 + 1 writes what index 1 writes. -/
theorem C10_setPixelRGB_wraparound_witness :
    ARGB_SetRGB scenarioCfg scenarioEngine (3 + 1) 9 8 7 =
      ARGB_SetRGB scenarioCfg scenarioEngine 1 9 8 7 :=
  (C10_setPixelRGB_wraparound scenarioCfg scenarioEngine 1 9 8 7
    (by decide) (by decide) (by decide)).1

/-- C11: in a 3-channel configuration (with the macro `RGB` of the header defined as the
specification says), `ARGB_SetWhite` returns `ARGB_PARAM_ERR` and leaves the engine, in
particular every byte of `RGB_BUF`, as it was, for every index and value. -/
theorem C11_white_rejected_on_three_channels (c : Config) (s : Engine) (i w : Nat)
    (h3 : c.family ≠ SK6812) (hh : c.headerOk) :
    ARGB_SetWhite c s i w = (ARGB_PARAM_ERR, s) := by
  have hr : c.RGB = true := hh.2 h3
  unfold ARGB_SetWhite
  rw [if_pos hr]

/-- C11 on a WS2812 strip: white 200 at index 1 is refused. -/
theorem C11_white_rejected_on_three_channels_witness :
    ARGB_SetWhite grbCfg scenarioEngine 1 200 = (ARGB_PARAM_ERR, scenarioEngine) :=
  C11_white_rejected_on_three_channels grbCfg scenarioEngine 1 200 (by decide) (by decide)

set_option maxRecDepth 100000 in
/-- C12, the code at the failing input (SK6812, 3 pixels, brightness 127, buffer bytes
1..12): `ARGB_SetWhite 3 200` does not wrap to pixel 0; it leaves the white byte of pixel 0
(position 3) as it was and writes position 15, beyond the 12 bytes of `RGB_BUF`, whereas
`ARGB_SetWhite 0 200` writes position 3, and `ARGB_SetRGB` at index 3 does wrap to pixel 0
(position 0). -/
theorem C12_white_index_does_not_wrap :
    NUM_BYTES rgbwCfg = 12 ∧
    (ARGB_SetWhite rgbwCfg rgbwEngine 0 200).2.RGB_BUF 3 = 100 ∧
    (ARGB_SetWhite rgbwCfg rgbwEngine 3 200).2.RGB_BUF 3 = 4 ∧
    (ARGB_SetWhite rgbwCfg rgbwEngine 3 200).2.RGB_BUF 15 = 100 ∧
    rgbwEngine.RGB_BUF 15 = 0 ∧
    (ARGB_SetRGB rgbwCfg rgbwEngine 3 200 0 0).2.RGB_BUF 0 = 100 := by
  decide

/-- C13 (as amended): on a strip whose pixel count is below 65536, so that it fits the
16-bit loop index, `ARGB_FillHSV` returns `ARGB_OK` (`NUM_PIXELS + 1` tests of its loop are
enough), and the colour buffer it leaves is the one left by calling `ARGB_SetHSV` for the
indices of any list `l` that holds exactly the indices `0 .. NUM_PIXELS - 1`, in any order:
converting the colour once instead of once per pixel changes no stored byte. -/
theorem C13_fillHSV_is_per_pixel (c : Config) (s : Engine) (hue sat val fuel : Nat)
    (hN : c.NUM_PIXELS < 65536) (hf : c.NUM_PIXELS < fuel) :
    ∃ s1, ARGB_FillHSV c fuel s hue sat val = some (ARGB_OK, s1) ∧
      ∀ l : List Nat, (∀ i, i ∈ l ↔ i < c.NUM_PIXELS) →
        (l.foldl (fun t i => (ARGB_SetHSV c t i hue sat val).2) s).RGB_BUF = s1.RGB_BUF := by
  refine ⟨_, fillRGB_returns c fuel s _ _ _ hN hf, ?_⟩
  intro l hl
  have e : (fun t i => (ARGB_SetHSV c t i hue sat val).2) =
      (fun t k => (ARGB_SetRGB c t k (HSV2RGB hue sat val).1 (HSV2RGB hue sat val).2.1
        (HSV2RGB hue sat val).2.2).2) := rfl
  rw [e]
  funext j
  have h1 := (foldl_setRGB c (HSV2RGB hue sat val).1 (HSV2RGB hue sat val).2.1
    (HSV2RGB hue sat val).2.2 l s (fun i hi => by have := (hl i).1 hi; omega)).2.2 j
  have h2 := (foldl_setRGB c (HSV2RGB hue sat val).1 (HSV2RGB hue sat val).2.1
    (HSV2RGB hue sat val).2.2 (List.range' 0 c.NUM_PIXELS) s
    (fun i hi => by have := (mem_range'_zero _ i).1 hi; omega)).2.2 j
  rw [h1, h2]
  have c1 := covers_iff c l hl j
  have c2 := covers_iff c (List.range' 0 c.NUM_PIXELS) (mem_range'_zero _) j
  by_cases hc : j % c.channels < 3 ∧ j / c.channels < c.NUM_PIXELS
  · rw [if_pos ⟨hc.1, c1.2 hc.2⟩, if_pos ⟨hc.1, c2.2 hc.2⟩]
  · rw [if_neg (fun h => hc ⟨h.1, c1.1 h.2⟩), if_neg (fun h => hc ⟨h.1, c2.1 h.2⟩)]

set_option maxRecDepth 100000 in
/-- C13 on the 3-pixel strip, hue 100, saturation 200, value 150: `ARGB_FillHSV` returns
within 4 tests of its loop and leaves the buffer that `ARGB_SetHSV` at the indices 2, 0, 1
leaves. -/
theorem C13_fillHSV_is_per_pixel_witness :
    ∃ s1, ARGB_FillHSV scenarioCfg 4 scenarioEngine 100 200 150 = some (ARGB_OK, s1) ∧
      ([2, 0, 1].foldl (fun t i => (ARGB_SetHSV scenarioCfg t i 100 200 150).2)
        scenarioEngine).RGB_BUF = s1.RGB_BUF := by
  obtain ⟨s1, h1, h2⟩ := C13_fillHSV_is_per_pixel scenarioCfg scenarioEngine 100 200 150 4
    (by decide) (by decide)
  refine ⟨s1, h1, h2 [2, 0, 1] ?_⟩
  intro i
  show i ∈ [2, 0, 1] ↔ i < 3
  simp only [List.mem_cons, List.mem_singleton, List.not_mem_nil, or_false]
  omega

/-- C13, the claim as stated fails on a strip of 65536 pixels: the 16-bit loop index of
`ARGB_FillRGB` stays below `NUM_PIXELS`, so `ARGB_FillHSV` returns nothing and leaves no
colour buffer to compare, whatever the number of tests of its loop. -/
theorem C13_fillHSV_never_returns_beyond_16_bits :
    ¬ ∃ fuel r, ARGB_FillHSV endlessCfg fuel idleEngine 100 200 150 = some r := by
  rintro ⟨fuel, r, h⟩
  unfold ARGB_FillHSV at h
  rw [fillRGB_spins endlessCfg fuel idleEngine _ _ _ (by decide)] at h
  exact Option.noConfusion h

/-- C14: for hue and value in 0..255 and saturation in 1..255, the sector, the remainder
and `p`, `q`, `t` computed in unbounded numbers stay below the 8-bit range (sector at most
5, remainder at most 252, `p`, `q`, `t` at most 254), so the 8-bit variables of `HSV2RGB`
do not wrap, and `HSV2RGB` returns `(val, t, p)`, `(q, val, p)`, `(p, val, t)`,
`(p, q, val)`, `(t, p, val)`, `(val, p, q)` in sector 0, 1, 2, 3, 4, 5. -/
theorem C14_hsv_matches_reference (hue sat val : Nat) (hh : hue < 256) (hs1 : 1 ≤ sat)
    (hs : sat < 256) (hv : val < 256) :
    hsvSector hue ≤ 5 ∧ hsvRem hue ≤ 252 ∧ hsvP sat val ≤ 254 ∧ hsvQ hue sat val ≤ 254 ∧
    hsvT hue sat val ≤ 254 ∧
    (hsvSector hue = 0 → HSV2RGB hue sat val = (val, hsvT hue sat val, hsvP sat val)) ∧
    (hsvSector hue = 1 → HSV2RGB hue sat val = (hsvQ hue sat val, val, hsvP sat val)) ∧
    (hsvSector hue = 2 → HSV2RGB hue sat val = (hsvP sat val, val, hsvT hue sat val)) ∧
    (hsvSector hue = 3 → HSV2RGB hue sat val = (hsvP sat val, hsvQ hue sat val, val)) ∧
    (hsvSector hue = 4 → HSV2RGB hue sat val = (hsvT hue sat val, hsvP sat val, val)) ∧
    (hsvSector hue = 5 → HSV2RGB hue sat val = (val, hsvP sat val, hsvQ hue sat val)) := by
  obtain ⟨b1, b2, b3, b4, b5⟩ := hsv_bounds hue sat val hh hs1 hs hv
  have e := HSV2RGB_eq hue sat val hh hs1 hs hv
  refine ⟨b1, b2, b3, b4, b5, ?_, ?_, ?_, ?_, ?_, ?_⟩ <;> intro h <;> rw [e, h]

/-- C14 at hue 100 (sector 2, remainder 84), saturation 200, value 150: `p = 32`,
`t = 71`, and the result is `(p, val, t)`. -/
theorem C14_hsv_matches_reference_witness :
    hsvSector 100 = 2 ∧ hsvRem 100 = 84 ∧ HSV2RGB 100 200 150 = (32, 150, 71) := by
  have h := C14_hsv_matches_reference 100 200 150 (by decide) (by decide) (by decide)
    (by decide)
  refine ⟨by decide, by decide, ?_⟩
  rw [h.2.2.2.2.2.2.2.1 (by decide)]
  decide

/-- C15: with saturation 0, `ARGB_SetHSV` leaves the engine `ARGB_SetRGB` leaves for the
grey `(v, v, v)`, for every index, hue, value, brightness and prior buffer. -/
theorem C15_zero_saturation_is_grey (c : Config) (s : Engine) (i hue v : Nat) :
    ARGB_SetHSV c s i hue 0 v = ARGB_SetRGB c s i v v v := by
  have h : HSV2RGB hue 0 v = (v, v, v) := by
    unfold HSV2RGB
    rw [if_pos rfl]
  unfold ARGB_SetHSV
  rw [h]

/-- C16 (as amended): on a strip whose pixel count is below 65536, so that it fits the
16-bit loop index (and with the macro `RGB` of the header as the specification says),
`ARGB_Clear` returns `ARGB_OK` and leaves every byte of the colour buffer 0, whatever the
buffer held, the brightness and the gamma setting: the three colour bytes of every pixel
and, for SK6812, the white byte too. -/
theorem C16_clear_zeroes_the_strip (c : Config) (fuel : Nat) (s : Engine)
    (hN : c.NUM_PIXELS < 65536) (hf : c.NUM_PIXELS < fuel) (hh : c.headerOk) :
    ∃ s1, ARGB_Clear c fuel s = some (ARGB_OK, s1) ∧
      ∀ j, j < NUM_BYTES c → s1.RGB_BUF j = 0 := by
  have hrgb : ∀ j, j % c.channels < 3 → j / c.channels < c.NUM_PIXELS →
      ((List.range' 0 c.NUM_PIXELS).foldl (fun t k => (ARGB_SetRGB c t k 0 0 0).2) s).RGB_BUF j
        = 0 := by
    intro j h1 h2
    rw [(foldl_setRGB c 0 0 0 (List.range' 0 c.NUM_PIXELS) s
      (fun i hi => by have := (mem_range'_zero _ i).1 hi; omega)).2.2 j,
      if_pos ⟨h1, (covers_iff c _ (mem_range'_zero _) j).2 h2⟩, storedByte_zero]
  unfold ARGB_Clear
  rw [fillRGB_returns c fuel s 0 0 0 hN hf]
  by_cases hf4 : c.family = SK6812
  · have hr : c.RGB = false := by
      cases hb : c.RGB
      · rfl
      · exact absurd hf4 (hh.1 hb)
    have hch : c.channels = 4 := by unfold Config.channels; rw [if_pos hf4]
    have hnb : NUM_BYTES c = 4 * c.NUM_PIXELS := by unfold NUM_BYTES; rw [if_pos hf4]
    simp only [hf4, if_true]
    rw [fillWhite_returns c fuel _ 0 hN hf]
    refine ⟨_, rfl, ?_⟩
    intro j hj
    rw [(foldl_setWhite c 0 hr (List.range' 0 c.NUM_PIXELS) _).2.2 j]
    by_cases hw : ∃ i ∈ List.range' 0 c.NUM_PIXELS, j = 4 * i + 3
    · rw [if_pos hw]
      simp
    · rw [if_neg hw]
      apply hrgb
      · rw [hch]
        by_contra h3
        apply hw
        refine ⟨j / 4, (mem_range'_zero _ _).2 (by omega), by omega⟩
      · rw [hch]; omega
  · have hch : c.channels = 3 := by unfold Config.channels; rw [if_neg hf4]
    have hnb : NUM_BYTES c = 3 * c.NUM_PIXELS := by unfold NUM_BYTES; rw [if_neg hf4]
    simp only [hf4, if_false]
    refine ⟨_, rfl, ?_⟩
    intro j hj
    apply hrgb
    · rw [hch]; omega
    · rw [hch]; omega

set_option maxRecDepth 100000 in
/-- C16 on the RGBW strip of 3 pixels at brightness 127: `ARGB_Clear` returns within 4
tests per loop, and the last byte (the white byte of pixel 2) is 0 afterwards. -/
theorem C16_clear_zeroes_the_strip_witness :
    ∃ s1, ARGB_Clear rgbwCfg 4 rgbwEngine = some (ARGB_OK, s1) ∧ s1.RGB_BUF 11 = 0 := by
  obtain ⟨s1, h1, h2⟩ := C16_clear_zeroes_the_strip rgbwCfg 4 rgbwEngine
    (by decide) (by decide) (by decide)
  exact ⟨s1, h1, h2 11 (by decide)⟩

/-- C16, the claim as stated fails on a strip of 65536 pixels: `ARGB_Clear` does not return
`ARGB_OK`, it does not return at all, because the 16-bit loop index of `ARGB_FillRGB` stays
below `NUM_PIXELS`. -/
theorem C16_clear_never_returns_beyond_16_bits :
    endlessCfg.headerOk ∧
    ¬ ∃ fuel r, ARGB_Clear endlessCfg fuel rgbwEngine = some r := by
  refine ⟨by decide, ?_⟩
  rintro ⟨fuel, r, h⟩
  unfold ARGB_Clear at h
  rw [fillRGB_spins endlessCfg fuel rgbwEngine 0 0 0 (by decide)] at h
  exact Option.noConfusion h

/-- C17 (as amended): the half-complete callback, on an engine with cursor `BUF_COUNTER`:
below `NUM_PIXELS` the first half of `PWM_BUF` becomes the encoding of the pixel at the
cursor, below `NUM_PIXELS + 2` it becomes all zero, and in both cases the cursor becomes
`BUF_COUNTER + 1` reduced modulo 65536, which is `BUF_COUNTER + 1` when `NUM_PIXELS + 2` is
a 16-bit value; otherwise the engine is unchanged.  In all cases the second half of
`PWM_BUF` (every position from `PWM_BUF_LEN / 2` on), `RGB_BUF` and the state are
unchanged. -/
theorem C17_half_consumed_step (c : Config) (s : Engine) :
    (s.BUF_COUNTER < c.NUM_PIXELS →
      firstHalf c (HAL_TIM_PWM_PulseFinishedHalfCpltCallback c true s).PWM_BUF =
        encodePixel c s.RGB_BUF s.PWM_HI s.PWM_LO s.BUF_COUNTER ∧
      (HAL_TIM_PWM_PulseFinishedHalfCpltCallback c true s).BUF_COUNTER =
        (s.BUF_COUNTER + 1) % 65536) ∧
    (c.NUM_PIXELS ≤ s.BUF_COUNTER → s.BUF_COUNTER < c.NUM_PIXELS + 2 →
      firstHalf c (HAL_TIM_PWM_PulseFinishedHalfCpltCallback c true s).PWM_BUF = zeroHalf c ∧
      (HAL_TIM_PWM_PulseFinishedHalfCpltCallback c true s).BUF_COUNTER =
        (s.BUF_COUNTER + 1) % 65536) ∧
    (c.NUM_PIXELS + 2 ≤ s.BUF_COUNTER →
      HAL_TIM_PWM_PulseFinishedHalfCpltCallback c true s = s) ∧
    (s.BUF_COUNTER < c.NUM_PIXELS + 2 → c.NUM_PIXELS + 2 < 65536 →
      (HAL_TIM_PWM_PulseFinishedHalfCpltCallback c true s).BUF_COUNTER = s.BUF_COUNTER + 1) ∧
    (∀ j, PWM_BUF_LEN c / 2 ≤ j →
      (HAL_TIM_PWM_PulseFinishedHalfCpltCallback c true s).PWM_BUF j = s.PWM_BUF j) ∧
    (HAL_TIM_PWM_PulseFinishedHalfCpltCallback c true s).RGB_BUF = s.RGB_BUF ∧
    ARGB_Ready (HAL_TIM_PWM_PulseFinishedHalfCpltCallback c true s) = ARGB_Ready s := by
  refine ⟨?_, ?_, ?_, ?_, ?_, ?_, ?_⟩
  · intro h
    have e : HAL_TIM_PWM_PulseFinishedHalfCpltCallback c true s =
        { s with
          PWM_BUF := halfFill c s.RGB_BUF s.BUF_COUNTER s.PWM_HI s.PWM_LO s.PWM_BUF
          BUF_COUNTER := (s.BUF_COUNTER + 1) % 65536 } := by
      simp [HAL_TIM_PWM_PulseFinishedHalfCpltCallback, h]
    rw [e]
    exact ⟨firstHalf_halfFill .., rfl⟩
  · intro h1 h2
    have e : HAL_TIM_PWM_PulseFinishedHalfCpltCallback c true s =
        { s with
          PWM_BUF := memset0 s.PWM_BUF 0 (PWM_BUF_LEN c / 2)
          BUF_COUNTER := (s.BUF_COUNTER + 1) % 65536 } := by
      have h1' : ¬ s.BUF_COUNTER < c.NUM_PIXELS := by omega
      simp [HAL_TIM_PWM_PulseFinishedHalfCpltCallback, h1', h2]
    rw [e]
    exact ⟨firstHalf_memset0_first .., rfl⟩
  · intro h
    have h1 : ¬ s.BUF_COUNTER < c.NUM_PIXELS := by omega
    have h2 : ¬ s.BUF_COUNTER < c.NUM_PIXELS + 2 := by omega
    simp [HAL_TIM_PWM_PulseFinishedHalfCpltCallback, h1, h2]
  · intro h h16
    have e : (HAL_TIM_PWM_PulseFinishedHalfCpltCallback c true s).BUF_COUNTER =
        (s.BUF_COUNTER + 1) % 65536 := by
      by_cases h1 : s.BUF_COUNTER < c.NUM_PIXELS <;>
        simp [HAL_TIM_PWM_PulseFinishedHalfCpltCallback, h1, h]
    rw [e]
    exact Nat.mod_eq_of_lt (by omega)
  · intro j hj
    unfold HAL_TIM_PWM_PulseFinishedHalfCpltCallback
    simp only [Bool.not_true, Bool.false_eq_true, if_false]
    split_ifs
    · show halfFill c s.RGB_BUF s.BUF_COUNTER s.PWM_HI s.PWM_LO s.PWM_BUF j = _
      rw [halfFill_apply, if_neg (by omega)]
    · show memset0 s.PWM_BUF 0 (PWM_BUF_LEN c / 2) j = _
      unfold memset0
      rw [if_neg (by omega)]
    · rfl
  · unfold HAL_TIM_PWM_PulseFinishedHalfCpltCallback
    simp only [Bool.not_true, Bool.false_eq_true, if_false]
    split_ifs <;> rfl
  · unfold HAL_TIM_PWM_PulseFinishedHalfCpltCallback ARGB_Ready
    simp only [Bool.not_true, Bool.false_eq_true, if_false]
    split_ifs <;> rfl

set_option maxRecDepth 100000 in
/-- C17 on the scenario's engine after `ARGB_Show` (cursor 2, 3 pixels): the first half
becomes the encoding of pixel 2 (blue: 16 LOW codes, then 8 HIGH) and the cursor 3. -/
theorem C17_half_consumed_step_witness :
    firstHalf scenarioCfg (HAL_TIM_PWM_PulseFinishedHalfCpltCallback scenarioCfg true
      (seeded scenarioCfg scenarioEngine)).PWM_BUF =
        List.replicate 16 17 ++ List.replicate 8 42 ∧
    (HAL_TIM_PWM_PulseFinishedHalfCpltCallback scenarioCfg true
      (seeded scenarioCfg scenarioEngine)).BUF_COUNTER = 2 + 1 := by
  have h := C17_half_consumed_step scenarioCfg (seeded scenarioCfg scenarioEngine)
  refine ⟨?_, h.2.2.2.1 (by decide) (by decide)⟩
  rw [(h.1 (by decide)).1]
  decide

/-- C17, the claim as stated fails on a strip of 65534 pixels with the cursor at 65535
(below `NUM_PIXELS + 2`): the half-complete callback leaves the cursor at 0, not at
65536. -/
theorem C17_cursor_wraps_in_half_callback :
    wrapEngine.BUF_COUNTER = 65535 ∧ wrapEngine.BUF_COUNTER < longCfg.NUM_PIXELS + 2 ∧
    (HAL_TIM_PWM_PulseFinishedHalfCpltCallback longCfg true wrapEngine).BUF_COUNTER = 0 := by
  decide

/-- C18 (as amended): the complete callback, on an engine with cursor `BUF_COUNTER`: below
`NUM_PIXELS + 2` it does to the second half of `PWM_BUF` what the half-complete callback
does to the first (the encoding of the pixel at the cursor below `NUM_PIXELS`, zeros
otherwise), the cursor becomes `BUF_COUNTER + 1` reduced modulo 65536 (which is
`BUF_COUNTER + 1` when `NUM_PIXELS + 2` is a 16-bit value), and the first half, the state
and the Transfer Engine are unchanged; from `NUM_PIXELS + 2` on it stops the Transfer
Engine, sets the cursor to 0 and the state to READY and leaves `PWM_BUF` unchanged.
`RGB_BUF` is never changed.  Hence the half-complete callback never changes the state, and
the complete callback makes it READY exactly when entered at or above `NUM_PIXELS + 2`. -/
theorem C18_full_consumed_step (c : Config) (s : Engine) :
    (s.BUF_COUNTER < c.NUM_PIXELS →
      secondHalf c (HAL_TIM_PWM_PulseFinishedCallback c true s).PWM_BUF =
        encodePixel c s.RGB_BUF s.PWM_HI s.PWM_LO s.BUF_COUNTER) ∧
    (c.NUM_PIXELS ≤ s.BUF_COUNTER → s.BUF_COUNTER < c.NUM_PIXELS + 2 →
      secondHalf c (HAL_TIM_PWM_PulseFinishedCallback c true s).PWM_BUF = zeroHalf c) ∧
    (s.BUF_COUNTER < c.NUM_PIXELS + 2 →
      (HAL_TIM_PWM_PulseFinishedCallback c true s).BUF_COUNTER =
        (s.BUF_COUNTER + 1) % 65536 ∧
      (c.NUM_PIXELS + 2 < 65536 →
        (HAL_TIM_PWM_PulseFinishedCallback c true s).BUF_COUNTER = s.BUF_COUNTER + 1) ∧
      (∀ j, j < PWM_BUF_LEN c / 2 →
        (HAL_TIM_PWM_PulseFinishedCallback c true s).PWM_BUF j = s.PWM_BUF j) ∧
      ARGB_Ready (HAL_TIM_PWM_PulseFinishedCallback c true s) = ARGB_Ready s ∧
      (HAL_TIM_PWM_PulseFinishedCallback c true s).dmaRequest = s.dmaRequest ∧
      (HAL_TIM_PWM_PulseFinishedCallback c true s).dmaState = s.dmaState) ∧
    (c.NUM_PIXELS + 2 ≤ s.BUF_COUNTER →
      (HAL_TIM_PWM_PulseFinishedCallback c true s).dmaRequest = false ∧
      (HAL_TIM_PWM_PulseFinishedCallback c true s).dmaState = HAL_DMA_STATE_READY ∧
      (HAL_TIM_PWM_PulseFinishedCallback c true s).BUF_COUNTER = 0 ∧
      ARGB_Ready (HAL_TIM_PWM_PulseFinishedCallback c true s) = ARGB_READY ∧
      (HAL_TIM_PWM_PulseFinishedCallback c true s).PWM_BUF = s.PWM_BUF) ∧
    (HAL_TIM_PWM_PulseFinishedCallback c true s).RGB_BUF = s.RGB_BUF ∧
    ARGB_Ready (HAL_TIM_PWM_PulseFinishedHalfCpltCallback c true s) = ARGB_Ready s := by
  refine ⟨?_, ?_, ?_, ?_, ?_, ?_⟩
  · intro h
    have e : (HAL_TIM_PWM_PulseFinishedCallback c true s).PWM_BUF =
        fullFill c s.RGB_BUF s.BUF_COUNTER s.PWM_HI s.PWM_LO s.PWM_BUF := by
      simp [HAL_TIM_PWM_PulseFinishedCallback, h]
    rw [e]
    exact secondHalf_fullFill ..
  · intro h1 h2
    have h1' : ¬ s.BUF_COUNTER < c.NUM_PIXELS := by omega
    have e : (HAL_TIM_PWM_PulseFinishedCallback c true s).PWM_BUF =
        memset0 s.PWM_BUF (PWM_BUF_LEN c / 2) (PWM_BUF_LEN c / 2) := by
      simp [HAL_TIM_PWM_PulseFinishedCallback, h1', h2]
    rw [e]
    exact secondHalf_memset0_second ..
  · intro h
    have ec : (HAL_TIM_PWM_PulseFinishedCallback c true s).BUF_COUNTER =
        (s.BUF_COUNTER + 1) % 65536 := by
      by_cases h1 : s.BUF_COUNTER < c.NUM_PIXELS <;>
        simp [HAL_TIM_PWM_PulseFinishedCallback, h1, h]
    refine ⟨ec, ?_, ?_, ?_, ?_, ?_⟩
    · intro h16
      rw [ec]
      exact Nat.mod_eq_of_lt (by omega)
    · intro j hj
      by_cases h1 : s.BUF_COUNTER < c.NUM_PIXELS
      · have e : (HAL_TIM_PWM_PulseFinishedCallback c true s).PWM_BUF =
            fullFill c s.RGB_BUF s.BUF_COUNTER s.PWM_HI s.PWM_LO s.PWM_BUF := by
          simp [HAL_TIM_PWM_PulseFinishedCallback, h1]
        rw [e, fullFill_apply, if_neg (by omega)]
      · have e : (HAL_TIM_PWM_PulseFinishedCallback c true s).PWM_BUF =
            memset0 s.PWM_BUF (PWM_BUF_LEN c / 2) (PWM_BUF_LEN c / 2) := by
          simp [HAL_TIM_PWM_PulseFinishedCallback, h1, h]
        rw [e]
        unfold memset0
        rw [if_neg (by omega)]
    · by_cases h1 : s.BUF_COUNTER < c.NUM_PIXELS <;>
        simp [HAL_TIM_PWM_PulseFinishedCallback, ARGB_Ready, h1, h]
    · by_cases h1 : s.BUF_COUNTER < c.NUM_PIXELS <;>
        simp [HAL_TIM_PWM_PulseFinishedCallback, h1, h]
    · by_cases h1 : s.BUF_COUNTER < c.NUM_PIXELS <;>
        simp [HAL_TIM_PWM_PulseFinishedCallback, h1, h]
  · intro h
    have h1 : ¬ s.BUF_COUNTER < c.NUM_PIXELS := by omega
    have h2 : ¬ s.BUF_COUNTER < c.NUM_PIXELS + 2 := by omega
    simp [HAL_TIM_PWM_PulseFinishedCallback, ARGB_Ready, h1, h2]
  · unfold HAL_TIM_PWM_PulseFinishedCallback
    simp only [Bool.not_true, Bool.false_eq_true, if_false]
    split_ifs <;> rfl
  · unfold HAL_TIM_PWM_PulseFinishedHalfCpltCallback ARGB_Ready
    simp only [Bool.not_true, Bool.false_eq_true, if_false]
    split_ifs <;> rfl

set_option maxRecDepth 100000 in
/-- C18 on the scenario's strip (3 pixels): entered with the cursor at 3 the complete
callback zeroes the second half and moves the cursor to 4; entered with the cursor at 5 it
makes the state READY and the cursor 0. -/
theorem C18_full_consumed_step_witness :
    secondHalf scenarioCfg (HAL_TIM_PWM_PulseFinishedCallback scenarioCfg true
      (runCallbacks scenarioCfg 1 (seeded scenarioCfg scenarioEngine))).PWM_BUF =
        zeroHalf scenarioCfg ∧
    (HAL_TIM_PWM_PulseFinishedCallback scenarioCfg true
      (runCallbacks scenarioCfg 1 (seeded scenarioCfg scenarioEngine))).BUF_COUNTER = 3 + 1 ∧
    ARGB_Ready (HAL_TIM_PWM_PulseFinishedCallback scenarioCfg true
      (runCallbacks scenarioCfg 3 (seeded scenarioCfg scenarioEngine))) = ARGB_READY := by
  have h1 := C18_full_consumed_step scenarioCfg
    (runCallbacks scenarioCfg 1 (seeded scenarioCfg scenarioEngine))
  have h3 := C18_full_consumed_step scenarioCfg
    (runCallbacks scenarioCfg 3 (seeded scenarioCfg scenarioEngine))
  exact ⟨h1.2.1 (by decide) (by decide), (h1.2.2.1 (by decide)).2.1 (by decide),
    (h3.2.2.2.1 (by decide)).2.2.2.1⟩

/-- C18, the claim as stated fails on a strip of 65534 pixels with the cursor at 65535
(below `NUM_PIXELS + 2`): the complete callback leaves the cursor at 0, not at 65536. -/
theorem C18_cursor_wraps_in_full_callback :
    wrapEngine.BUF_COUNTER = 65535 ∧ wrapEngine.BUF_COUNTER < longCfg.NUM_PIXELS + 2 ∧
    (HAL_TIM_PWM_PulseFinishedCallback longCfg true wrapEngine).BUF_COUNTER = 0 := by
  decide

/-- C20: the `RGB_BUF` positions read by `ARGB_Show` and by the two callbacks, and the
`PWM_BUF` positions they write, on any engine.  With two pixels or more every position
read is below `NUM_BYTES` (`channels * NUM_PIXELS`, `channels` being 3 or 4) and every
position written is below `PWM_BUF_LEN` (`channels * 8 * 2`).  The positions listed are
all there is: `PWM_BUF` is unchanged outside the positions written and the `PWM_BUF`
produced is the same for any other content of `RGB_BUF` outside the positions read.  An
admitted `ARGB_Show` reads the first `2 * channels` positions, so with one pixel it reads
the `channels` positions past the end of `RGB_BUF`. -/
theorem C20_accesses_in_bounds (c : Config) (start : Nat → HAL_StatusTypeDef) (fuel : Nat)
    (b : Bool) (s : Engine) :
    (c.channels = 3 ∨ c.channels = 4) ∧
    NUM_BYTES c = c.channels * c.NUM_PIXELS ∧ PWM_BUF_LEN c = c.channels * 8 * 2 ∧
    (2 ≤ c.NUM_PIXELS →
      (∀ j ∈ showReads c s, j < c.channels * c.NUM_PIXELS) ∧
      (∀ j ∈ callbackReads c b s, j < c.channels * c.NUM_PIXELS) ∧
      (∀ j ∈ showWrites c s, j < c.channels * 8 * 2) ∧
      (∀ j ∈ halfWrites c b s, j < c.channels * 8 * 2) ∧
      (∀ j ∈ fullWrites c b s, j < c.channels * 8 * 2)) ∧
    (∀ x s1, ARGB_Show c start fuel s = some (x, s1) →
      ∀ j, j ∉ showWrites c s → s1.PWM_BUF j = s.PWM_BUF j) ∧
    (∀ j, j ∉ halfWrites c b s →
      (HAL_TIM_PWM_PulseFinishedHalfCpltCallback c b s).PWM_BUF j = s.PWM_BUF j) ∧
    (∀ j, j ∉ fullWrites c b s →
      (HAL_TIM_PWM_PulseFinishedCallback c b s).PWM_BUF j = s.PWM_BUF j) ∧
    (∀ rgb : Nat → Nat, (∀ j ∈ showReads c s, rgb j = s.RGB_BUF j) →
      (ARGB_Show c start fuel { s with RGB_BUF := rgb }).map (fun r => r.2.PWM_BUF) =
        (ARGB_Show c start fuel s).map (fun r => r.2.PWM_BUF)) ∧
    (∀ rgb : Nat → Nat, (∀ j ∈ callbackReads c b s, rgb j = s.RGB_BUF j) →
      (HAL_TIM_PWM_PulseFinishedHalfCpltCallback c b { s with RGB_BUF := rgb }).PWM_BUF =
        (HAL_TIM_PWM_PulseFinishedHalfCpltCallback c b s).PWM_BUF ∧
      (HAL_TIM_PWM_PulseFinishedCallback c b { s with RGB_BUF := rgb }).PWM_BUF =
        (HAL_TIM_PWM_PulseFinishedCallback c b s).PWM_BUF) ∧
    (s.BUF_COUNTER = 0 → s.dmaState = HAL_DMA_STATE_READY →
      ∀ j, j < 2 * c.channels → j ∈ showReads c s) ∧
    (c.NUM_PIXELS = 1 → s.BUF_COUNTER = 0 → s.dmaState = HAL_DMA_STATE_READY →
      ∀ j, c.channels ≤ j → j < 2 * c.channels →
        j ∈ showReads c s ∧ c.channels * c.NUM_PIXELS ≤ j) := by
  have hch : c.channels = 3 ∨ c.channels = 4 := by
    unfold Config.channels
    split_ifs
    · exact Or.inr rfl
    · exact Or.inl rfl
  have hnb : NUM_BYTES c = c.channels * c.NUM_PIXELS := by
    unfold NUM_BYTES Config.channels
    split_ifs <;> rfl
  have hpl : PWM_BUF_LEN c = c.channels * 8 * 2 := by
    unfold PWM_BUF_LEN Config.channels
    split_ifs <;> rfl
  have hhalf := half_len c
  have hadmR : s.BUF_COUNTER = 0 → s.dmaState = HAL_DMA_STATE_READY →
      showReads c s = showReadIdx c := by
    intro h0 hd
    simp only [showReads, h0, hd, ne_eq, not_true_eq_false, or_self, if_false]
  have hadmW : s.BUF_COUNTER = 0 → s.dmaState = HAL_DMA_STATE_READY →
      showWrites c s = (List.range 8).flatMap (showWriteIdx c) := by
    intro h0 hd
    simp only [showWrites, h0, hd, ne_eq, not_true_eq_false, or_self, if_false]
  refine ⟨hch, hnb, hpl, ?_, ?_, ?_, ?_, ?_, ?_, ?_, ?_⟩
  · intro h2
    refine ⟨?_, ?_, ?_, ?_, ?_⟩
    · intro j hj
      unfold showReads at hj
      split_ifs at hj
      · simp at hj
      · rw [mem_showReadIdx] at hj
        calc j < 2 * c.channels := hj
          _ = c.channels * 2 := Nat.mul_comm _ _
          _ ≤ c.channels * c.NUM_PIXELS := Nat.mul_le_mul_left _ h2
    · intro j hj
      unfold callbackReads at hj
      split_ifs at hj with h1 h3
      · simp at hj
      · rw [mem_callbackReadIdx] at hj
        calc j < c.channels * s.BUF_COUNTER + c.channels := hj.2
          _ = c.channels * (s.BUF_COUNTER + 1) := by rw [Nat.mul_add, Nat.mul_one]
          _ ≤ c.channels * c.NUM_PIXELS := Nat.mul_le_mul_left _ h3
      · simp at hj
    · intro j hj
      unfold showWrites at hj
      split_ifs at hj
      · simp at hj
      · rw [mem_showWriteIdx] at hj
        omega
    · intro j hj
      unfold halfWrites at hj
      split_ifs at hj
      · simp at hj
      · rw [mem_halfWriteIdx] at hj
        omega
      · rw [List.mem_range] at hj
        omega
      · simp at hj
    · intro j hj
      unfold fullWrites at hj
      split_ifs at hj
      · simp at hj
      · rw [mem_fullWriteIdx] at hj
        omega
      · rw [List.mem_map] at hj
        obtain ⟨k, hk, e⟩ := hj
        rw [List.mem_range] at hk
        omega
      · simp at hj
  · intro x s1 h j hj
    by_cases hadm : s.BUF_COUNTER ≠ 0 ∨ s.dmaState ≠ HAL_DMA_STATE_READY
    · rw [show_refused c start fuel s hadm] at h
      simp only [Option.some.injEq, Prod.mk.injEq] at h
      rw [← h.2]
    · have h0 : s.BUF_COUNTER = 0 := by
        by_contra hh; exact hadm (Or.inl hh)
      have hd : s.dmaState = HAL_DMA_STATE_READY := by
        by_contra hh; exact hadm (Or.inr hh)
      rw [show_admitted c start fuel s h0 hd] at h
      rw [hadmW h0 hd, mem_showWriteIdx] at hj
      split at h
      · simp only [Option.some.injEq, Prod.mk.injEq] at h
        rw [← h.2]
        show showFill c s.RGB_BUF s.PWM_HI s.PWM_LO s.PWM_BUF j = _
        rw [showFill_apply, if_neg hj]
      · exact Option.noConfusion h
  · intro j hj
    unfold halfWrites at hj
    unfold HAL_TIM_PWM_PulseFinishedHalfCpltCallback
    split_ifs at hj ⊢
    · rfl
    · rw [mem_halfWriteIdx] at hj
      show halfFill c s.RGB_BUF s.BUF_COUNTER s.PWM_HI s.PWM_LO s.PWM_BUF j = _
      rw [halfFill_apply, if_neg hj]
    · rw [List.mem_range] at hj
      show memset0 s.PWM_BUF 0 (PWM_BUF_LEN c / 2) j = _
      unfold memset0
      rw [if_neg (by omega)]
    · rfl
  · intro j hj
    unfold fullWrites at hj
    unfold HAL_TIM_PWM_PulseFinishedCallback
    split_ifs at hj ⊢
    · rfl
    · rw [mem_fullWriteIdx] at hj
      show fullFill c s.RGB_BUF s.BUF_COUNTER s.PWM_HI s.PWM_LO s.PWM_BUF j = _
      rw [fullFill_apply, if_neg hj]
    · have hj2 : ¬ (PWM_BUF_LEN c / 2 ≤ j ∧ j < PWM_BUF_LEN c / 2 + PWM_BUF_LEN c / 2) := by
        intro hh
        apply hj
        rw [List.mem_map]
        exact ⟨j - PWM_BUF_LEN c / 2, by rw [List.mem_range]; omega, by omega⟩
      show memset0 s.PWM_BUF (PWM_BUF_LEN c / 2) (PWM_BUF_LEN c / 2) j = _
      unfold memset0
      rw [if_neg hj2]
    · rfl
  · intro rgb hr
    by_cases hadm : s.BUF_COUNTER ≠ 0 ∨ s.dmaState ≠ HAL_DMA_STATE_READY
    · have e1 := show_refused c start fuel { s with RGB_BUF := rgb } hadm
      rw [e1, show_refused c start fuel s hadm]
      rfl
    · have h0 : s.BUF_COUNTER = 0 := by
        by_contra hh; exact hadm (Or.inl hh)
      have hd : s.dmaState = HAL_DMA_STATE_READY := by
        by_contra hh; exact hadm (Or.inr hh)
      rw [hadmR h0 hd] at hr
      have e1 := show_admitted c start fuel { s with RGB_BUF := rgb } h0 hd
      rw [e1, show_admitted c start fuel s h0 hd]
      by_cases hc : fuel ≠ 0 ∧ s.chState = HAL_TIM_CHANNEL_STATE_READY ∧
          start s.dmaStarts = HAL_OK
      · rw [if_pos hc, if_pos hc]
        simp only [Option.map_some', seeded, Option.some.injEq]
        exact showFill_reads c rgb s.RGB_BUF s.PWM_HI s.PWM_LO s.PWM_BUF hr
      · rw [if_neg hc, if_neg hc]
  · intro rgb hr
    unfold callbackReads at hr
    unfold HAL_TIM_PWM_PulseFinishedHalfCpltCallback HAL_TIM_PWM_PulseFinishedCallback
    constructor
    · split_ifs at hr ⊢
      · rfl
      · exact halfFill_reads c rgb s.RGB_BUF s.BUF_COUNTER s.PWM_HI s.PWM_LO s.PWM_BUF hr
      · rfl
      · rfl
    · split_ifs at hr ⊢
      · rfl
      · exact fullFill_reads c rgb s.RGB_BUF s.BUF_COUNTER s.PWM_HI s.PWM_LO s.PWM_BUF hr
      · rfl
      · rfl
  · intro h0 hd j hj
    rw [hadmR h0 hd, mem_showReadIdx]
    exact hj
  · intro h1 h0 hd j hj1 hj2
    rw [hadmR h0 hd, mem_showReadIdx, h1, Nat.mul_one]
    exact ⟨hj2, hj1⟩

set_option maxRecDepth 100000 in
/-- C20 on the scenario's strip (3 pixels of 3 bytes, `RGB_BUF` of 9 bytes, `PWM_BUF` of
48): `ARGB_Show` on the idle engine reads below 9 and writes below 48, and so does either
callback on the engine it leaves.  On a strip of a single WS2812 pixel (`RGB_BUF` of 3
bytes) `ARGB_Show` reads position 3: with 128 there, the code at `PWM_BUF[24]` is the
HIGH code 42 instead of the LOW code 17. -/
theorem C20_accesses_in_bounds_witness :
    ((∀ j ∈ showReads scenarioCfg scenarioEngine, j < 3 * 3) ∧
      (∀ j ∈ callbackReads scenarioCfg true (seeded scenarioCfg scenarioEngine), j < 3 * 3) ∧
      (∀ j ∈ showWrites scenarioCfg scenarioEngine, j < 3 * 8 * 2) ∧
      (∀ j ∈ halfWrites scenarioCfg true (seeded scenarioCfg scenarioEngine), j < 3 * 8 * 2) ∧
      (∀ j ∈ fullWrites scenarioCfg true (seeded scenarioCfg scenarioEngine), j < 3 * 8 * 2)) ∧
    (3 ∈ showReads singleCfg idleEngine ∧ singleCfg.channels * singleCfg.NUM_PIXELS ≤ 3) ∧
    (ARGB_Show singleCfg startOk 1 idleEngine).map (fun r => r.2.PWM_BUF 24) = some 17 ∧
    (ARGB_Show singleCfg startOk 1 pastEndEngine).map (fun r => r.2.PWM_BUF 24) = some 42 ∧
    (∀ j, j < NUM_BYTES singleCfg → pastEndEngine.RGB_BUF j = idleEngine.RGB_BUF j) := by
  refine ⟨?_, ?_, by decide, by decide, by decide⟩
  · have h := (C20_accesses_in_bounds scenarioCfg startOk 1 true scenarioEngine).2.2.2.1
      (by decide)
    have g := (C20_accesses_in_bounds scenarioCfg startOk 1 true
      (seeded scenarioCfg scenarioEngine)).2.2.2.1 (by decide)
    exact ⟨h.1, g.2.1, h.2.2.1, g.2.2.2.1, g.2.2.2.2⟩
  · exact (C20_accesses_in_bounds singleCfg startOk 1 true idleEngine).2.2.2.2.2.2.2.2.2.2
      (by decide) (by decide) (by decide) 3 (by decide) (by decide)

/-- C21: for a brightness `br` in 0..255 the divisor `256 / (br + 1)` of `ARGB_SetRGB` is
not 0; from 128 on it is 1, the scaled channel is the channel itself and `ARGB_SetRGB`
leaves the same colour buffer as at brightness 255; and for channel values in 0..255 the
scaled value, and with it every byte `ARGB_SetRGB` leaves in the colour buffer, does not
decrease when the brightness grows.  The scaled value is what `ARGB_SetRGB` stores, through
`scale8` when gamma correction is on (shown for the third byte of the pixel). -/
theorem C21_brightness_plateau (c : Config) (s : Engine) (i r g b br : Nat) (hi : i < 65536)
    (hbr : br ≤ 255) (hr : r < 256) (hg : g < 256) (hb : b < 256) :
    brightnessDivisor br ≠ 0 ∧
    (128 ≤ br →
      brightnessDivisor br = 1 ∧ brightnessScaled br r = r ∧
      (ARGB_SetRGB c (ARGB_SetBrightness s br).2 i r g b).2.RGB_BUF =
        (ARGB_SetRGB c (ARGB_SetBrightness s 255).2 i r g b).2.RGB_BUF) ∧
    (∀ br2, br ≤ br2 → br2 ≤ 255 →
      brightnessScaled br r ≤ brightnessScaled br2 r ∧
      ∀ j, (ARGB_SetRGB c (ARGB_SetBrightness s br).2 i r g b).2.RGB_BUF j ≤
        (ARGB_SetRGB c (ARGB_SetBrightness s br2).2 i r g b).2.RGB_BUF j) ∧
    (ARGB_SetRGB c (ARGB_SetBrightness s br).2 i r g b).2.RGB_BUF
        (c.channels * (i % c.NUM_PIXELS) + 2) =
      (if c.USE_GAMMA_CORRECTION then scale8 (brightnessScaled br b) 0xF0
        else brightnessScaled br b) := by
  have hbuf : ∀ x j, (ARGB_SetRGB c (ARGB_SetBrightness s x).2 i r g b).2.RGB_BUF j =
      if j / c.channels = i % c.NUM_PIXELS ∧ j % c.channels < 3
        then storedByte c x r g b j else s.RGB_BUF j :=
    fun x j => setRGB_buf_pixel c (ARGB_SetBrightness s x).2 i r g b hi j
  refine ⟨?_, ?_, ?_, ?_⟩
  · have := divisor_pos br hbr
    omega
  · intro h128
    have hd := divisor_plateau br h128 hbr
    refine ⟨hd, ?_, ?_⟩
    · rw [scaled_eq br r hr, hd, Nat.div_one]
    · funext j
      rw [hbuf br j, hbuf 255 j, storedByte_plateau c br r g b j h128 hbr]
  · intro br2 h1 h2
    refine ⟨scaled_mono br br2 r h1 h2 hr, ?_⟩
    intro j
    rw [hbuf br j, hbuf br2 j]
    split_ifs
    · exact storedByte_mono c br br2 r g b j h1 h2 hr hg hb
    · exact Nat.le_refl _
  · obtain ⟨h3, h4⟩ := channels_ge c
    have hc : (c.channels * (i % c.NUM_PIXELS) + 2) / c.channels = i % c.NUM_PIXELS ∧
        (c.channels * (i % c.NUM_PIXELS) + 2) % c.channels = 2 :=
      divmod_of_eq c.channels (i % c.NUM_PIXELS) 2 _ (by omega) rfl
    rw [hbuf br _, if_pos ⟨hc.1, by omega⟩, storedByte_scaled, if_neg (by omega),
      if_neg (by omega)]

set_option maxRecDepth 100000 in
/-- C21 on the scenario's strip, pixel 1, colour (200, 100, 50): at brightness 128 the
divisor is 1 and the buffer is the one of brightness 255; from brightness 63 (divisor 4,
red 50) to 127 (divisor 2, red 100) no byte decreases. -/
theorem C21_brightness_plateau_witness :
    (brightnessDivisor 128 = 1 ∧ brightnessScaled 128 200 = 200 ∧
      (ARGB_SetRGB scenarioCfg (ARGB_SetBrightness scenarioEngine 128).2 1 200 100 50).2.RGB_BUF =
        (ARGB_SetRGB scenarioCfg (ARGB_SetBrightness scenarioEngine 255).2 1 200 100 50).2.RGB_BUF) ∧
    (brightnessScaled 63 200 ≤ brightnessScaled 127 200 ∧
      (ARGB_SetRGB scenarioCfg (ARGB_SetBrightness scenarioEngine 63).2 1 200 100 50).2.RGB_BUF 3
        ≤ (ARGB_SetRGB scenarioCfg (ARGB_SetBrightness scenarioEngine 127).2 1 200 100
          50).2.RGB_BUF 3) ∧
    brightnessScaled 63 200 = 50 ∧ brightnessScaled 127 200 = 100 := by
  have h1 := (C21_brightness_plateau scenarioCfg scenarioEngine 1 200 100 50 128 (by decide)
    (by decide) (by decide) (by decide) (by decide)).2.1 (by decide)
  have h2 := (C21_brightness_plateau scenarioCfg scenarioEngine 1 200 100 50 63 (by decide)
    (by decide) (by decide) (by decide) (by decide)).2.2.1 127 (by decide) (by decide)
  exact ⟨h1, ⟨h2.1, h2.2 3⟩, by decide, by decide⟩

/-- C22: for hue, saturation and value in 0..255 the largest of the three channels returned
by `HSV2RGB` is `val`, so no channel exceeds it; with a saturation above 0 the smallest is
`p = (val * (255 - sat)) >> 8`, and `p ≤ q ≤ val` and `p ≤ t ≤ val`. -/
theorem C22_value_is_peak (hue sat val : Nat) (hh : hue < 256) (hs : sat < 256)
    (hv : val < 256) :
    max (HSV2RGB hue sat val).1 (max (HSV2RGB hue sat val).2.1 (HSV2RGB hue sat val).2.2) = val ∧
    ((HSV2RGB hue sat val).1 ≤ val ∧ (HSV2RGB hue sat val).2.1 ≤ val ∧
      (HSV2RGB hue sat val).2.2 ≤ val) ∧
    (0 < sat →
      min (HSV2RGB hue sat val).1 (min (HSV2RGB hue sat val).2.1 (HSV2RGB hue sat val).2.2) =
        hsvP sat val ∧
      hsvP sat val ≤ hsvQ hue sat val ∧ hsvQ hue sat val ≤ val ∧
      hsvP sat val ≤ hsvT hue sat val ∧ hsvT hue sat val ≤ val) := by
  by_cases h0 : sat = 0
  · have e : HSV2RGB hue sat val = (val, val, val) := by
      unfold HSV2RGB
      rw [if_pos h0]
    rw [e]
    refine ⟨by simp, ⟨Nat.le_refl _, Nat.le_refl _, Nat.le_refl _⟩, ?_⟩
    intro h
    omega
  · obtain ⟨o1, o2, o3, o4, o5⟩ := hsv_order hue sat val hs
    have e := HSV2RGB_eq hue sat val hh (by omega) hs hv
    have hsec : hsvSector hue ≤ 5 := (hsv_bounds hue sat val hh (by omega) hs hv).1
    have hc : hsvSector hue = 0 ∨ hsvSector hue = 1 ∨ hsvSector hue = 2 ∨ hsvSector hue = 3 ∨
        hsvSector hue = 4 ∨ hsvSector hue = 5 := by omega
    rcases hc with h | h | h | h | h | h <;> rw [h] at e <;> rw [e] <;>
      simp only [] <;>
      refine ⟨by omega, ⟨by omega, by omega, by omega⟩, fun _ => ⟨by omega, o1, o2, o3, o4⟩⟩

/-- C22 at hue 100, saturation 200, value 150: the channels are (32, 150, 71), the largest
is 150 and the smallest is `p = 32`. -/
theorem C22_value_is_peak_witness :
    HSV2RGB 100 200 150 = (32, 150, 71) ∧
    max (HSV2RGB 100 200 150).1 (max (HSV2RGB 100 200 150).2.1 (HSV2RGB 100 200 150).2.2) = 150 ∧
    min (HSV2RGB 100 200 150).1 (min (HSV2RGB 100 200 150).2.1 (HSV2RGB 100 200 150).2.2) =
      hsvP 200 150 ∧
    hsvP 200 150 = 32 := by
  have h := C22_value_is_peak 100 200 150 (by decide) (by decide) (by decide)
  exact ⟨by decide, h.1, (h.2.2 (by decide)).1, by decide⟩

end ARGB
